import Mathlib

/-!
# ECEN 2370 sensor node: bus transaction state machine, event scheduler, sleep arbiter

A shallow embedding of `sleep_routines.c`, `scheduler.c`, `i2c.c` and of the launch
helpers of `SI7021.c` / `veml.c`.

Conventions of the embedding

* `uint32_t` values are natural numbers; where C arithmetic can wrap the reduction
  modulo `2^32` is written out.  `int` counters are integers.
* `EFM_ASSERT(e)` with `e` false is fatal: the routine stops at the assertion.  A routine
  that contains an assertion returns `Except σ σ`; `.ok s` is a normal return with final
  state `s`, `.error s` is a failed assertion reached in state `s`.
* Values read from hardware registers (`RXDATA`, `TXDATA`, the `STATE` test of
  `i2c_start`) are inputs of the routine that reads them.  Writes to hardware registers and
  calls into the scheduler and the arbiter are appended to a trace, oldest first.
-/

namespace ECEN2370

/-! ## sleep_routines.h -/

/-- `#define MAX_ENERGY_MODES 5` -/
abbrev MAX_ENERGY_MODES : Nat := 5

/-- `#define EM0 0` -/
abbrev EM0 : Fin MAX_ENERGY_MODES := 0
/-- `#define EM1 1` -/
abbrev EM1 : Fin MAX_ENERGY_MODES := 1
/-- `#define EM2 2` -/
abbrev EM2 : Fin MAX_ENERGY_MODES := 2
/-- `#define EM3 3` -/
abbrev EM3 : Fin MAX_ENERGY_MODES := 3
/-- `#define EM4 4` -/
abbrev EM4 : Fin MAX_ENERGY_MODES := 4

/-- `static int lowest_energy_mode[MAX_ENERGY_MODES]`: one vote counter per energy mode.
An index is a `Fin MAX_ENERGY_MODES`; indexing outside the array is undefined in C and is
not modelled. -/
abbrev EnergyModes : Type := Fin MAX_ENERGY_MODES → Int

/-- Array store `a[i] = v`. -/
def EnergyModes.set (a : EnergyModes) (i : Fin MAX_ENERGY_MODES) (v : Int) : EnergyModes :=
  fun j => if j = i then v else a j

/-! ## sleep_routines.c -/

/-- `sleep_open`: every counter is set to 0. -/
def sleep_open : EnergyModes := fun _ => 0

/-- `sleep_block_mode(EM)`: `lowest_energy_mode[EM]++` and then
`EFM_ASSERT(lowest_energy_mode[EM] <= 5)`; the increment is done before the assertion. -/
def sleep_block_mode (EM : Fin MAX_ENERGY_MODES) (lowest_energy_mode : EnergyModes) :
    Except EnergyModes EnergyModes :=
  let a := lowest_energy_mode.set EM (lowest_energy_mode EM + 1)
  if a EM ≤ 5 then .ok a else .error a

/-- `sleep_unblock_mode(EM)`: `lowest_energy_mode[EM]--` and then
`EFM_ASSERT(lowest_energy_mode[EM] >= 0)`; the decrement is done before the assertion. -/
def sleep_unblock_mode (EM : Fin MAX_ENERGY_MODES) (lowest_energy_mode : EnergyModes) :
    Except EnergyModes EnergyModes :=
  let a := lowest_energy_mode.set EM (lowest_energy_mode EM - 1)
  if a EM ≥ 0 then .ok a else .error a

/-- The low-power entry routine `enter_sleep` calls, if any. -/
inductive EMU_Call where
  | nothing
  | EMU_EnterEM1
  | EMU_EnterEM2
  | EMU_EnterEM3
  deriving DecidableEq, Repr

/-- `enter_sleep`: the `if` / `else if` chain over the counters of EM0..EM3. -/
def enter_sleep (lowest_energy_mode : EnergyModes) : EMU_Call :=
  if lowest_energy_mode EM0 > 0 then .nothing
  else if lowest_energy_mode EM1 > 0 then .nothing
  else if lowest_energy_mode EM2 > 0 then .EMU_EnterEM1
  else if lowest_energy_mode EM3 > 0 then .EMU_EnterEM2
  else .EMU_EnterEM3

/-- The `for` loop of `current_block_energy_mode` with `k` iterations left, that is at
index `i = MAX_ENERGY_MODES - k`: return `i` when the counter at `i` is nonzero, otherwise
go on; after the last iteration return `MAX_ENERGY_MODES - 1`. -/
def current_block_energy_mode_loop (lowest_energy_mode : EnergyModes) : Nat → Nat
  | 0 => MAX_ENERGY_MODES - 1
  | k + 1 =>
    if h : MAX_ENERGY_MODES - (k + 1) < MAX_ENERGY_MODES then
      if lowest_energy_mode ⟨MAX_ENERGY_MODES - (k + 1), h⟩ ≠ 0 then MAX_ENERGY_MODES - (k + 1)
      else current_block_energy_mode_loop lowest_energy_mode k
    else MAX_ENERGY_MODES - 1

/-- `current_block_energy_mode`: the loop started at `i = 0`. -/
def current_block_energy_mode (lowest_energy_mode : EnergyModes) : Nat :=
  current_block_energy_mode_loop lowest_energy_mode MAX_ENERGY_MODES

/-! ## scheduler.c -/

/-- Modulus of `uint32_t` arithmetic. -/
abbrev UINT32_MOD : Nat := 4294967296

/-- `x - 1` on a `uint32_t` value `x`: 0 wraps to `2^32 - 1`. -/
def u32_dec (x : Nat) : Nat := if x = 0 then UINT32_MOD - 1 else x - 1

/-- `scheduler_open`: `event_scheduled = 0`. -/
def scheduler_open : Nat := 0

/-- `add_scheduled_event(event)`: `event_scheduled |= event`. -/
def add_scheduled_event (event : Nat) (event_scheduled : Nat) : Nat :=
  event_scheduled ||| event

/-- `remove_scheduled_event(event)`: `event_scheduled &= ~event`, the complement taken in
32 bits. -/
def remove_scheduled_event (event : Nat) (event_scheduled : Nat) : Nat :=
  event_scheduled &&& (UINT32_MOD - 1 - event % UINT32_MOD)

/-- `get_scheduled_events`: returns `event_scheduled`. -/
def get_scheduled_events (event_scheduled : Nat) : Nat := event_scheduled

/-! ## app.h: scheduled events -/

/-- `#define SI7021_READ_CB 0x00000008` -/
abbrev SI7021_READ_CB : Nat := 0x8
/-- `#define VEML_CB 0x80` -/
abbrev VEML_CB : Nat := 0x80
/-- `#define SI7021_TEMP_READ_CB 0x100` -/
abbrev SI7021_TEMP_READ_CB : Nat := 0x100

/-! ## i2c.h -/

/-- A value of type `I2C_TypeDef *`: the null pointer (the content of a static pointer that
was never assigned), the two peripherals `I2C0` and `I2C1` of the device header, or any
other address.  The device header is not part of the sources; only the identity of the
handles matters to the driver. -/
inductive I2C_Ptr where
  | NULL
  | I2C0
  | I2C1
  | other (address : Nat)
  deriving DecidableEq, Repr

/-- A value of type `uint32_t *` handed to `i2c_start`: the address of the static
`humidity_data` of `SI7021.c`, of the static `light_data` of `veml.c`, or any other
address. -/
inductive DataPtr where
  | humidity_data
  | light_data
  | other (address : Nat)
  deriving DecidableEq, Repr

/-- The command bits written to `I2Cx->CMD` by the state machine (`I2C_CMD_START`,
`I2C_CMD_STOP`, `I2C_CMD_ACK`, `I2C_CMD_NACK` of the device header). -/
inductive I2C_CMD where
  | START
  | STOP
  | ACK
  | NACK
  deriving DecidableEq, Repr

/-- `#define I2C_EM_BLOCK EM2` -/
abbrev I2C_EM_BLOCK : Fin MAX_ENERGY_MODES := EM2
/-- `#define I2C_READ true` -/
abbrev I2C_READ : Bool := true
/-- `#define I2C_WRITE false` -/
abbrev I2C_WRITE : Bool := false
/-- `#define I2C_BYTES_1 1` -/
abbrev I2C_BYTES_1 : Nat := 1
/-- `#define I2C_BYTES_2 2` -/
abbrev I2C_BYTES_2 : Nat := 2

/-- `typedef struct { ... } I2C_STATE_MACHINE` -/
structure I2C_STATE_MACHINE where
  current_state : Nat
  I2Cx : I2C_Ptr
  slave_address : Nat
  slave_register : Nat
  read_write : Bool
  num_transfer_bytes : Nat
  bytes_transfered : Nat
  data : DataPtr
  si_cb : Nat
  i2c_busy : Bool
  deriving DecidableEq, Repr

/-! ## i2c.c: private variables -/

/-- `enum DEFINED_STATES`, value 0 -/
abbrev Start_Command : Nat := 0
/-- `enum DEFINED_STATES`, value 1 -/
abbrev Read_Command : Nat := 1
/-- `enum DEFINED_STATES`, value 2 -/
abbrev Write_Command : Nat := 2
/-- `enum DEFINED_STATES`, value 3 -/
abbrev Wait_Read : Nat := 3
/-- `enum DEFINED_STATES`, value 4 -/
abbrev End_Sensing : Nat := 4
/-- `enum DEFINED_STATES`, value 5 -/
abbrev Stop : Nat := 5

/-- What the code does to the outside of the three modules' variables: a write to a
register of an I2C peripheral, or a call into the scheduler or the arbiter. -/
inductive Effect where
  | CMD (i2c : I2C_Ptr) (cmd : I2C_CMD)
  | TXDATA (i2c : I2C_Ptr) (value : Nat)
  | sleep_block_mode (EM : Fin MAX_ENERGY_MODES)
  | sleep_unblock_mode (EM : Fin MAX_ENERGY_MODES)
  | add_scheduled_event (event : Nat)
  deriving DecidableEq, Repr

/-- The variables the driver works on: the two static descriptors of `i2c.c`, the counter
array of `sleep_routines.c`, the pending set of `scheduler.c`, the memory the `data`
pointers point into, and the trace of effects so far (oldest first). -/
structure World where
  i2c_state_machine_struct : I2C_STATE_MACHINE
  veml_i2c_state_machine_struct : I2C_STATE_MACHINE
  lowest_energy_mode : EnergyModes
  event_scheduled : Nat
  mem : DataPtr → Nat
  trace : List Effect

/-- The value of a zero-initialised static `I2C_STATE_MACHINE`. -/
def I2C_STATE_MACHINE.zero : I2C_STATE_MACHINE where
  current_state := 0
  I2Cx := .NULL
  slave_address := 0
  slave_register := 0
  read_write := false
  num_transfer_bytes := 0
  bytes_transfered := 0
  data := .other 0
  si_cb := 0
  i2c_busy := false

/-- The argument `I2C_STATE_MACHINE *i2c_sm` of the four handlers: the interrupt routines
pass the address of one of the two static descriptors. -/
inductive SmPtr where
  | i2c_state_machine_struct
  | veml_i2c_state_machine_struct
  deriving DecidableEq, Repr

/-- Read through a descriptor pointer. -/
def World.deref (w : World) : SmPtr → I2C_STATE_MACHINE
  | .i2c_state_machine_struct => w.i2c_state_machine_struct
  | .veml_i2c_state_machine_struct => w.veml_i2c_state_machine_struct

/-- Write through a descriptor pointer. -/
def World.store (w : World) : SmPtr → I2C_STATE_MACHINE → World
  | .i2c_state_machine_struct, sm => { w with i2c_state_machine_struct := sm }
  | .veml_i2c_state_machine_struct, sm => { w with veml_i2c_state_machine_struct := sm }

/-- Write through a data pointer: `*p = v`. -/
def World.poke (w : World) (p : DataPtr) (v : Nat) : World :=
  { w with mem := fun q => if q = p then v else w.mem q }

/-- Append effects to the trace. -/
def World.emit (w : World) (es : List Effect) : World :=
  { w with trace := w.trace ++ es }

/-- A call of `sleep_block_mode` from the driver, on the counters of the world. -/
def World.sleep_block_mode (EM : Fin MAX_ENERGY_MODES) (w : World) : Except World World :=
  let w := w.emit [.sleep_block_mode EM]
  match ECEN2370.sleep_block_mode EM w.lowest_energy_mode with
  | .ok a => .ok { w with lowest_energy_mode := a }
  | .error a => .error { w with lowest_energy_mode := a }

/-- A call of `sleep_unblock_mode` from the driver, on the counters of the world. -/
def World.sleep_unblock_mode (EM : Fin MAX_ENERGY_MODES) (w : World) : Except World World :=
  let w := w.emit [.sleep_unblock_mode EM]
  match ECEN2370.sleep_unblock_mode EM w.lowest_energy_mode with
  | .ok a => .ok { w with lowest_energy_mode := a }
  | .error a => .error { w with lowest_energy_mode := a }

/-- A call of `add_scheduled_event` from the driver, on the pending set of the world. -/
def World.add_scheduled_event (event : Nat) (w : World) : World :=
  { w.emit [.add_scheduled_event event] with
    event_scheduled := ECEN2370.add_scheduled_event event w.event_scheduled }

/-! ## i2c.c: functions -/

/-- `i2c_start`.  `i2c0_idle` is the value the hardware gives to the asserted expression
`(I2C0->STATE & _I2C_STATE_STATE_MASK) == I2C_STATE_STATE_IDLE`. -/
def i2c_start (i2c0_idle : Bool) (i2cx : I2C_Ptr) (slave_address slave_register : Nat)
    (read_write : Bool) (data : DataPtr) (si_read_cb num_bytes : Nat) (w : World) :
    Except World World :=
  if i2c0_idle = false then .error w
  else
    match w.sleep_block_mode I2C_EM_BLOCK with
    | .error w => .error w
    | .ok w =>
      let sm : I2C_STATE_MACHINE :=
        { I2Cx := i2cx
          slave_address := slave_address
          slave_register := slave_register
          read_write := read_write
          num_transfer_bytes := num_bytes
          bytes_transfered := 0
          data := data
          si_cb := si_read_cb
          i2c_busy := true
          current_state := Start_Command }
      if i2cx = .I2C0 then
        .ok (({ w with veml_i2c_state_machine_struct := sm }).emit
          [.CMD sm.I2Cx .START,
           .TXDATA sm.I2Cx (((sm.slave_address <<< 1) % UINT32_MOD) ||| I2C_WRITE.toNat)])
      else
        .ok (({ w with i2c_state_machine_struct := sm }).emit
          [.CMD sm.I2Cx .START,
           .TXDATA sm.I2Cx (((sm.slave_address <<< 1) % UINT32_MOD) ||| I2C_WRITE.toNat)])

/-- `check_busy`. -/
def check_busy (i2c : I2C_Ptr) (w : World) : Bool :=
  if i2c = w.i2c_state_machine_struct.I2Cx then w.i2c_state_machine_struct.i2c_busy
  else if i2c = w.veml_i2c_state_machine_struct.I2Cx then
    w.veml_i2c_state_machine_struct.i2c_busy
  else true

/-- `i2c_ack`.  `TXDATA` is the value a read of `I2Cx->TXDATA` gives; it is read only by
the `|=` of the second byte of a two-byte write. -/
def i2c_ack (i2c_sm : SmPtr) (TXDATA : Nat) (w : World) : Except World World :=
  let sm := w.deref i2c_sm
  if sm.current_state = Start_Command then
    if sm.read_write = I2C_READ then
      .ok ((w.store i2c_sm { sm with current_state := Read_Command }).emit
        [.TXDATA sm.I2Cx sm.slave_register])
    else
      .ok ((w.store i2c_sm { sm with current_state := Write_Command }).emit
        [.TXDATA sm.I2Cx sm.slave_register])
  else if sm.current_state = Read_Command then
    .ok ((w.store i2c_sm { sm with current_state := Wait_Read }).emit
      [.CMD sm.I2Cx .START,
       .TXDATA sm.I2Cx (((sm.slave_address <<< 1) % UINT32_MOD) ||| I2C_READ.toNat)])
  else if sm.current_state = Write_Command then
    if sm.num_transfer_bytes = 1 then
      .ok ((w.store i2c_sm { sm with current_state := End_Sensing }).emit
        [.TXDATA sm.I2Cx (w.mem sm.data)])
    else if sm.num_transfer_bytes = 2 then
      if sm.bytes_transfered = 0 then
        .ok ((w.store i2c_sm { sm with bytes_transfered := 1 }).emit
          [.TXDATA sm.I2Cx (w.mem sm.data)])
      else if sm.bytes_transfered = 1 then
        .ok ((w.store i2c_sm { sm with current_state := End_Sensing }).emit
          [.TXDATA sm.I2Cx (TXDATA |||
            ((w.mem sm.data <<< u32_dec (8 * sm.num_transfer_bytes % UINT32_MOD))
              % UINT32_MOD))])
      else .ok w
    else .ok w
  else if sm.current_state = Wait_Read then
    .ok (w.store i2c_sm { sm with current_state := End_Sensing })
  else if sm.current_state = End_Sensing then
    if sm.read_write = I2C_WRITE then
      .ok ((w.store i2c_sm { sm with current_state := Stop }).emit [.CMD sm.I2Cx .STOP])
    else .error w
  else .error w

/-- `i2c_nack`. -/
def i2c_nack (i2c_sm : SmPtr) (w : World) : Except World World :=
  let sm := w.deref i2c_sm
  if sm.current_state = Start_Command then .error w
  else if sm.current_state = Read_Command then .error w
  else if sm.current_state = Write_Command then .error w
  else if sm.current_state = Wait_Read then
    .ok ((w.store i2c_sm { sm with current_state := Wait_Read }).emit
      [.CMD sm.I2Cx .START,
       .TXDATA sm.I2Cx (((sm.slave_address <<< 1) % UINT32_MOD) ||| I2C_READ.toNat)])
  else .error w

/-- `i2c_rxdatav`.  `RXDATA` is the value the read of `I2Cx->RXDATA` gives; every path
through the `End_Sensing` case reads the register exactly once. -/
def i2c_rxdatav (i2c_sm : SmPtr) (RXDATA : Nat) (w : World) : Except World World :=
  let sm := w.deref i2c_sm
  if sm.current_state = Start_Command then .error w
  else if sm.current_state = Read_Command then .error w
  else if sm.current_state = Wait_Read then .error w
  else if sm.current_state = Write_Command then .error w
  else if sm.current_state = End_Sensing then
    let sm := { sm with num_transfer_bytes := u32_dec sm.num_transfer_bytes }
    let w := w.store i2c_sm sm
    if sm.I2Cx = w.i2c_state_machine_struct.I2Cx then
      if sm.num_transfer_bytes > 0 then
        .ok ((w.poke sm.data ((RXDATA <<< (8 * sm.num_transfer_bytes % UINT32_MOD))
          % UINT32_MOD)).emit [.CMD sm.I2Cx .ACK])
      else
        .ok (((w.poke sm.data (w.mem sm.data ||| RXDATA)).store i2c_sm
          { sm with current_state := Stop }).emit [.CMD sm.I2Cx .NACK, .CMD sm.I2Cx .STOP])
    else
      if sm.num_transfer_bytes > 0 then
        .ok ((w.poke sm.data RXDATA).emit [.CMD sm.I2Cx .ACK])
      else
        .ok (((w.poke sm.data (w.mem sm.data ||| ((RXDATA <<< 8) % UINT32_MOD))).store i2c_sm
          { sm with current_state := Stop }).emit [.CMD sm.I2Cx .NACK, .CMD sm.I2Cx .STOP])
  else .error w

/-- `i2c_mstop`. -/
def i2c_mstop (i2c_sm : SmPtr) (w : World) : Except World World :=
  let sm := w.deref i2c_sm
  if sm.current_state = Start_Command then .error w
  else if sm.current_state = Read_Command then .error w
  else if sm.current_state = Wait_Read then .error w
  else if sm.current_state = Write_Command then .error w
  else if sm.current_state = End_Sensing then .error w
  else if sm.current_state = Stop then
    match w.sleep_unblock_mode I2C_EM_BLOCK with
    | .error w => .error w
    | .ok w =>
      let w := w.add_scheduled_event sm.si_cb
      .ok (w.store i2c_sm { w.deref i2c_sm with current_state := Start_Command, i2c_busy := false })
  else .error w

/-! ## SI7021.h, SI7021.c, veml.h, veml.c: the launch helpers -/

/-- `#define SI7021_I2C I2C1` -/
abbrev SI7021_I2C : I2C_Ptr := .I2C1
/-- `#define SI7021_COMMAND 0xF5` -/
abbrev SI7021_COMMAND : Nat := 0xF5
/-- `#define SI7021_SLAVE_ADDRESS 0x40` -/
abbrev SI7021_SLAVE_ADDRESS : Nat := 0x40
/-- `#define VEML_I2C I2C0` -/
abbrev VEML_I2C : I2C_Ptr := .I2C0
/-- `#define VEML_ADDR 0x48` -/
abbrev VEML_ADDR : Nat := 0x48
/-- `#define VEML_READ 4` -/
abbrev VEML_READ : Nat := 4
/-- `#define VEML_CONFIG 0x00` -/
abbrev VEML_CONFIG : Nat := 0x00
/-- `#define VEML_RW_R true` -/
abbrev VEML_RW_R : Bool := true
/-- `#define VEML_RW_W false` -/
abbrev VEML_RW_W : Bool := false

/-- `si7021_read`: the call of `i2c_start`; the argument is not used by the body.  The
`timer_delay(15)` that follows is a wait that touches none of the variables of the world
and is left out. -/
def si7021_read (i2c0_idle : Bool) (_SI7021_read_cb : Nat) (w : World) : Except World World :=
  i2c_start i2c0_idle SI7021_I2C SI7021_SLAVE_ADDRESS SI7021_COMMAND true .humidity_data
    SI7021_READ_CB I2C_BYTES_2 w

/-- `veml_read`: the call of `i2c_start`; the argument is not used by the body. -/
def veml_read (i2c0_idle : Bool) (_veml_read_cb : Nat) (w : World) : Except World World :=
  i2c_start i2c0_idle VEML_I2C VEML_ADDR VEML_READ VEML_RW_R .light_data VEML_CB I2C_BYTES_2 w

/-- `veml_write`: the call of `i2c_start`. -/
def veml_write (i2c0_idle : Bool) (w : World) : Except World World :=
  i2c_start i2c0_idle VEML_I2C VEML_ADDR VEML_CONFIG VEML_RW_W .light_data VEML_CB I2C_BYTES_2 w

/-! ## Initial state -/

/-- The world at start-up: the statics of `i2c.c` zero-initialised, the arbiter after
`sleep_open`, the scheduler after `scheduler_open`, memory cleared, nothing done yet. -/
def World.zero : World where
  i2c_state_machine_struct := .zero
  veml_i2c_state_machine_struct := .zero
  lowest_energy_mode := sleep_open
  event_scheduled := scheduler_open
  mem := fun _ => 0
  trace := []

/-- The state a routine ends in, whether it returned or stopped at an assertion. -/
def final (r : Except World World) : World :=
  match r with
  | .ok w => w
  | .error w => w

/-- The start-up world after the launch made by `si7021_read`: the `I2C1` descriptor is
busy. -/
def World.humidity_read_launched : World :=
  final (si7021_read true SI7021_READ_CB World.zero)

/-- The start-up world after the launch made by `veml_read`: the `I2C0` descriptor is
busy. -/
def World.light_read_launched : World :=
  final (veml_read true VEML_CB World.zero)

/-! ## Interrupt delivery -/


/-- One interrupt of an I2C peripheral as seen by the state machine, with the value of the
hardware register that its handler reads. -/
inductive Interrupt where
  | ACK (TXDATA : Nat)
  | NACK
  | RXDATAV (RXDATA : Nat)
  | MSTOP
  deriving DecidableEq, Repr

/-- The handler call that the interrupt routine makes for one interrupt flag. -/
def Interrupt.handle (i2c_sm : SmPtr) : Interrupt → World → Except World World
  | .ACK TXDATA, w => i2c_ack i2c_sm TXDATA w
  | .NACK, w => i2c_nack i2c_sm w
  | .RXDATAV RXDATA, w => i2c_rxdatav i2c_sm RXDATA w
  | .MSTOP, w => i2c_mstop i2c_sm w

/-- A sequence of interrupts on one descriptor; a fatal assertion ends the run. -/
def deliver (i2c_sm : SmPtr) : List Interrupt → World → Except World World
  | [], w => .ok w
  | irq :: rest, w =>
    match irq.handle i2c_sm w with
    | .ok w1 => deliver i2c_sm rest w1
    | .error w1 => .error w1

/-- A sequence of interrupts, each on its own descriptor; a fatal assertion ends the
run. -/
def run : List (SmPtr × Interrupt) → World → Except World World
  | [], w => .ok w
  | (i2c_sm, irq) :: rest, w =>
    match irq.handle i2c_sm w with
    | .ok w1 => run rest w1
    | .error w1 => .error w1

/-- The light read after its three acknowledges and two data-received interrupts: NACK and
STOP have been issued, the `I2C0` descriptor is in the `Stop` phase and still busy, the
stop-completed interrupt has not been handled yet. -/
def World.light_read_stopping : World :=
  final (deliver .veml_i2c_state_machine_struct
    [.ACK 0, .ACK 0, .ACK 0, .RXDATAV 0x68, .RXDATAV 0x3A] World.light_read_launched)

/-- The start-up world after the launch of the one-byte write of the user register of the
SI7021 (register 0xE6) that the self-test makes on `I2C1`. -/
def World.user_register_write_launched : World :=
  final (i2c_start true SI7021_I2C SI7021_SLAVE_ADDRESS 0xE6 false .humidity_data
    SI7021_READ_CB I2C_BYTES_1 World.zero)

/-- A world after `k` acknowledges on a descriptor, the transmit register reading as 0. -/
def World.after_acks (w : World) (i2c_sm : SmPtr) : Nat → World
  | 0 => w
  | k + 1 => final (i2c_ack i2c_sm 0 (w.after_acks i2c_sm k))

/-- The descriptor a bus handle selects: `i2c_start` fills
`veml_i2c_state_machine_struct` for `I2C0` and `i2c_state_machine_struct` otherwise, and
`I2C0_IRQHandler` / `I2C1_IRQHandler` pass the same descriptors to the handlers. -/
def descriptor_of (i2cx : I2C_Ptr) : SmPtr :=
  if i2cx = .I2C0 then .veml_i2c_state_machine_struct else .i2c_state_machine_struct

/-- The first `k` acknowledge interrupts; `tx i` is the value the `TXDATA` register reads
as during the `i`-th of them. -/
def acks (tx : Nat → Nat) : Nat → List Interrupt
  | 0 => []
  | k + 1 => acks tx k ++ [.ACK (tx k)]

/-- The first `k` data-received interrupts; `rx i` is the value of `RXDATA` at the `i`-th of
them. -/
def rxdatavs (rx : Nat → Nat) : Nat → List Interrupt
  | 0 => []
  | k + 1 => rxdatavs rx k ++ [.RXDATAV (rx k)]

/-- The interrupt sequence of a complete transaction of `n` bytes: for a read three
acknowledges, `n` data-received interrupts and stop-completed; for a write one acknowledge,
`n + 1` further acknowledges and stop-completed. -/
def documented_sequence (read_write : Bool) (n : Nat) (tx rx : Nat → Nat) : List Interrupt :=
  if read_write = I2C_READ then acks tx 3 ++ rxdatavs rx n ++ [.MSTOP]
  else acks tx (1 + (n + 1)) ++ [.MSTOP]

/-- The arguments of the `add_scheduled_event` calls in a trace, in order. -/
def posted : List Effect → List Nat
  | [] => []
  | .add_scheduled_event event :: es => event :: posted es
  | _ :: es => posted es

/-! ## The combined system -/

/-- One step of the combined system: a launch through `i2c_start`, or one interrupt handled
on one of the two descriptors. -/
inductive Action where
  | launch (i2c0_idle : Bool) (i2cx : I2C_Ptr) (slave_address slave_register : Nat)
      (read_write : Bool) (data : DataPtr) (si_read_cb num_bytes : Nat)
  | interrupt (i2c_sm : SmPtr) (irq : Interrupt)

/-- The routine an action runs. -/
def Action.apply : Action → World → Except World World
  | .launch i2c0_idle i2cx slave_address slave_register read_write data si_read_cb num_bytes,
      w =>
    i2c_start i2c0_idle i2cx slave_address slave_register read_write data si_read_cb
      num_bytes w
  | .interrupt i2c_sm irq, w => irq.handle i2c_sm w

/-- The discipline on launches: a launch is made only on a bus whose descriptor is not
busy.  Interrupts are not restricted. -/
def launch_on_idle_bus (w : World) : Action → Bool
  | .launch _ i2cx _ _ _ _ _ _ => !(w.deref (descriptor_of i2cx)).i2c_busy
  | .interrupt _ _ => true

/-- The states of the combined system reachable under a discipline: the start is any world
in which the arbiter is as `sleep_open` leaves it and the two static descriptors are
zero-initialised; a step is an action the discipline allows that returns without a fatal
assertion. -/
inductive Reachable (allowed : World → Action → Bool) : World → Prop where
  | start (w : World) (hsleep : w.lowest_energy_mode = sleep_open)
      (h1 : w.i2c_state_machine_struct = .zero)
      (h0 : w.veml_i2c_state_machine_struct = .zero) : Reachable allowed w
  | step (w : World) (a : Action) (w1 : World) (hw : Reachable allowed w)
      (ha : allowed w a = true) (hstep : a.apply w = .ok w1) : Reachable allowed w1

/-- Run a list of actions under a discipline: `none` when an action is not allowed or ends
in a fatal assertion. -/
def exec (allowed : World → Action → Bool) : List Action → World → Option World
  | [], w => some w
  | a :: rest, w =>
    if allowed w a then
      match a.apply w with
      | .ok w1 => exec allowed rest w1
      | .error _ => none
    else none

/-- A run of the combined system in which launches are made only on a bus that is not
busy: the one-byte write of the user register on `I2C1` driven to completion, then three
acknowledges handled on the `I2C1` descriptor with no transaction in flight, which take it
to the `Stop` phase again. -/
def stray_stop_run : List Action :=
  [.launch true .I2C1 0x40 0xE6 false .humidity_data SI7021_READ_CB 1,
   .interrupt .i2c_state_machine_struct (.ACK 0),
   .interrupt .i2c_state_machine_struct (.ACK 0),
   .interrupt .i2c_state_machine_struct (.ACK 0),
   .interrupt .i2c_state_machine_struct .MSTOP,
   .interrupt .i2c_state_machine_struct (.ACK 0),
   .interrupt .i2c_state_machine_struct (.ACK 0),
   .interrupt .i2c_state_machine_struct (.ACK 0)]

/-- A run of the combined system in which launches are made only on a bus that is not
busy: the one-byte write of the user register on `I2C1` driven to completion; the light
read on `I2C0` launched and driven through its three acknowledges and two data-received
interrupts, so that its descriptor is in the `Stop` phase; and, with no transaction in
flight on `I2C1`, three acknowledges and a stop-completed handled on the `I2C1`
descriptor. -/
def stray_release_run : List Action :=
  [.launch true .I2C1 0x40 0xE6 false .humidity_data SI7021_READ_CB 1,
   .interrupt .i2c_state_machine_struct (.ACK 0),
   .interrupt .i2c_state_machine_struct (.ACK 0),
   .interrupt .i2c_state_machine_struct (.ACK 0),
   .interrupt .i2c_state_machine_struct .MSTOP,
   .launch true .I2C0 0x48 4 true .light_data VEML_CB 2,
   .interrupt .veml_i2c_state_machine_struct (.ACK 0),
   .interrupt .veml_i2c_state_machine_struct (.ACK 0),
   .interrupt .veml_i2c_state_machine_struct (.ACK 0),
   .interrupt .veml_i2c_state_machine_struct (.RXDATAV 0x68),
   .interrupt .veml_i2c_state_machine_struct (.RXDATAV 0x3A),
   .interrupt .i2c_state_machine_struct (.ACK 0),
   .interrupt .i2c_state_machine_struct (.ACK 0),
   .interrupt .i2c_state_machine_struct (.ACK 0),
   .interrupt .i2c_state_machine_struct .MSTOP]

/-- The register writes in a trace, in order: the output on the bus. -/
def bus_output : List Effect → List Effect
  | [] => []
  | .CMD i2c cmd :: es => .CMD i2c cmd :: bus_output es
  | .TXDATA i2c value :: es => .TXDATA i2c value :: bus_output es
  | _ :: es => bus_output es

/-! ## Sequences of arbiter calls -/

/-- One call into the arbiter: `sleep_block_mode(EM)` or `sleep_unblock_mode(EM)`. -/
inductive SleepCall where
  | block (EM : Fin MAX_ENERGY_MODES)
  | unblock (EM : Fin MAX_ENERGY_MODES)
  deriving DecidableEq, Repr

/-- The routine a call runs. -/
def SleepCall.apply : SleepCall → EnergyModes → Except EnergyModes EnergyModes
  | .block EM, a => sleep_block_mode EM a
  | .unblock EM, a => sleep_unblock_mode EM a

/-- A sequence of arbiter calls; a fatal assertion ends the run. -/
def sleep_calls : List SleepCall → EnergyModes → Except EnergyModes EnergyModes
  | [], a => .ok a
  | c :: rest, a =>
    match c.apply a with
    | .ok a1 => sleep_calls rest a1
    | .error a1 => .error a1

/-- The counters a run of arbiter calls ends with, whether it returned or stopped at an
assertion. -/
def sleep_final (r : Except EnergyModes EnergyModes) : EnergyModes :=
  match r with
  | .ok a => a
  | .error a => a

/-- The energy level an entry routine of `enter_sleep` enters: `EMU_EnterEM1` enters EM1,
`EMU_EnterEM2` enters EM2, `EMU_EnterEM3` enters EM3; without a call no low-power level is
entered. -/
def EMU_Call.level : EMU_Call → Option Nat
  | .nothing => none
  | .EMU_EnterEM1 => some 1
  | .EMU_EnterEM2 => some 2
  | .EMU_EnterEM3 => some 3

/-! ## Critical sections -/

/-- `#define BOOT_UP_CB 0x10` (app.h) -/
abbrev BOOT_UP_CB : Nat := 0x10

/-- A statement in the body of a routine that mutates a shared variable of type `σ`:
`CORE_ENTER_CRITICAL()`, `CORE_EXIT_CRITICAL()`, a read-modify-write of the variable
(`x |= e`, `x &= ~e`, `x++`, `x--`) or an `EFM_ASSERT` on it.  `CORE_DECLARE_IRQ_STATE` is a
declaration and has no statement. -/
inductive Statement (σ : Type) where
  | CORE_ENTER_CRITICAL
  | CORE_EXIT_CRITICAL
  | update (f : σ → σ)
  | EFM_ASSERT (holds : σ → Bool)

/-- The body of `add_scheduled_event`: the single statement `event_scheduled |= event`. -/
def add_scheduled_event_body (event : Nat) : List (Statement Nat) :=
  [.update (fun event_scheduled => event_scheduled ||| event)]

/-- The body of `remove_scheduled_event`: `event_scheduled &= ~event` between
`CORE_ENTER_CRITICAL()` and `CORE_EXIT_CRITICAL()`. -/
def remove_scheduled_event_body (event : Nat) : List (Statement Nat) :=
  [.CORE_ENTER_CRITICAL,
   .update (fun event_scheduled => event_scheduled &&& (UINT32_MOD - 1 - event % UINT32_MOD)),
   .CORE_EXIT_CRITICAL]

/-- The body of `sleep_block_mode`: the increment and the assertion between
`CORE_ENTER_CRITICAL()` and `CORE_EXIT_CRITICAL()`. -/
def sleep_block_mode_body (EM : Fin MAX_ENERGY_MODES) : List (Statement EnergyModes) :=
  [.CORE_ENTER_CRITICAL,
   .update (fun lowest_energy_mode => lowest_energy_mode.set EM (lowest_energy_mode EM + 1)),
   .EFM_ASSERT (fun lowest_energy_mode => decide (lowest_energy_mode EM ≤ 5)),
   .CORE_EXIT_CRITICAL]

/-- The body of `sleep_unblock_mode`: the decrement and the assertion between
`CORE_ENTER_CRITICAL()` and `CORE_EXIT_CRITICAL()`. -/
def sleep_unblock_mode_body (EM : Fin MAX_ENERGY_MODES) : List (Statement EnergyModes) :=
  [.CORE_ENTER_CRITICAL,
   .update (fun lowest_energy_mode => lowest_energy_mode.set EM (lowest_energy_mode EM - 1)),
   .EFM_ASSERT (fun lowest_energy_mode => decide (lowest_energy_mode EM ≥ 0)),
   .CORE_EXIT_CRITICAL]

/-- A body run with no interrupt in between: the critical-section statements do not touch
the variable, a failed assertion is fatal. -/
def run_body {σ : Type} : List (Statement σ) → σ → Except σ σ
  | [], s => .ok s
  | .CORE_ENTER_CRITICAL :: rest, s => run_body rest s
  | .CORE_EXIT_CRITICAL :: rest, s => run_body rest s
  | .update f :: rest, s => run_body rest (f s)
  | .EFM_ASSERT holds :: rest, s => if holds s then run_body rest s else .error s

/-- Whether every read-modify-write of a body lies between a `CORE_ENTER_CRITICAL()` and
the matching `CORE_EXIT_CRITICAL()`; `critical` says whether interrupts are excluded where
the body starts. -/
def updates_in_critical_section {σ : Type} : List (Statement σ) → Bool → Bool
  | [], _ => true
  | .CORE_ENTER_CRITICAL :: rest, _ => updates_in_critical_section rest true
  | .CORE_EXIT_CRITICAL :: rest, _ => updates_in_critical_section rest false
  | .update _ :: rest, critical => critical && updates_in_critical_section rest critical
  | .EFM_ASSERT _ :: rest, critical => updates_in_critical_section rest critical

/-- A body run on the application thread while one interrupt request arrives, whose handler
`isr` changes the same variable and runs to completion once the request is taken.
`arrival = some k` says the request arrives while the statement `k` places ahead runs, for a
read-modify-write after the variable has been read and before it is written back;
`arrival = none` says no request is still to come.  With interrupts excluded (`critical`) a
request is held (`held`) and taken at `CORE_EXIT_CRITICAL()`; otherwise it is taken at once,
and a read-modify-write then writes back the value computed from what it had read.  A
request that arrives after the body is taken at the end.  Assertions do not change the
variable; their outcome is not followed here. -/
def interleave {σ : Type} (isr : σ → σ) :
    List (Statement σ) → Option Nat → Bool → Bool → σ → σ
  | [], arrival, _, held, s => if held || arrival.isSome then isr s else s
  | .CORE_ENTER_CRITICAL :: rest, some 0, _, _, s => interleave isr rest none true true s
  | .CORE_ENTER_CRITICAL :: rest, some (k + 1), _, held, s =>
    interleave isr rest (some k) true held s
  | .CORE_ENTER_CRITICAL :: rest, none, _, held, s => interleave isr rest none true held s
  | .CORE_EXIT_CRITICAL :: rest, some 0, _, _, s => interleave isr rest none false false (isr s)
  | .CORE_EXIT_CRITICAL :: rest, some (k + 1), _, held, s =>
    interleave isr rest (some k) false false (if held then isr s else s)
  | .CORE_EXIT_CRITICAL :: rest, none, _, held, s =>
    interleave isr rest none false false (if held then isr s else s)
  | .update f :: rest, some 0, critical, _, s =>
    if critical then interleave isr rest none true true (f s)
    else interleave isr rest none false false (f s)
  | .update f :: rest, some (k + 1), critical, held, s =>
    interleave isr rest (some k) critical held (f s)
  | .update f :: rest, none, critical, held, s => interleave isr rest none critical held (f s)
  | .EFM_ASSERT _ :: rest, some 0, critical, _, s =>
    if critical then interleave isr rest none true true s
    else interleave isr rest none false false (isr s)
  | .EFM_ASSERT _ :: rest, some (k + 1), critical, held, s =>
    interleave isr rest (some k) critical held s
  | .EFM_ASSERT _ :: rest, none, critical, held, s => interleave isr rest none critical held s

/-! ## Shared lemmas -/

/-- An accepted `i2c_start`: the hardware test passed, the vote did not exceed the bound,
and the resulting world is the old one with the vote taken, the selected descriptor filled
and the two register writes appended. -/
theorem i2c_start_ok_iff (i2c0_idle : Bool) (i2cx : I2C_Ptr) (sa reg : Nat) (rw : Bool)
    (data : DataPtr) (cb n : Nat) (w w1 : World) :
    i2c_start i2c0_idle i2cx sa reg rw data cb n w = .ok w1 ↔
      i2c0_idle = true ∧ w.lowest_energy_mode I2C_EM_BLOCK + 1 ≤ 5 ∧
      w1 = (((({ w with lowest_energy_mode :=
                  w.lowest_energy_mode.set I2C_EM_BLOCK (w.lowest_energy_mode I2C_EM_BLOCK + 1) }
                : World).emit [.sleep_block_mode I2C_EM_BLOCK]).store (descriptor_of i2cx)
              { current_state := Start_Command, I2Cx := i2cx, slave_address := sa,
                slave_register := reg, read_write := rw, num_transfer_bytes := n,
                bytes_transfered := 0, data := data, si_cb := cb, i2c_busy := true }).emit
            [.CMD i2cx .START, .TXDATA i2cx (((sa <<< 1) % UINT32_MOD) ||| 0)]) := by
  unfold i2c_start World.sleep_block_mode sleep_block_mode descriptor_of
  cases i2c0_idle <;> simp [World.emit, World.store, EnergyModes.set]
  by_cases h : w.lowest_energy_mode 2 + 1 ≤ 5
  · by_cases hb : i2cx = .I2C0 <;> simp [h, hb, World.store, eq_comm]
  · simp [h]

/-- The comparison of `I2C0` with the handle stored in `i2c_state_machine_struct` is either
true or false. -/
theorem handle_cases (h : I2C_Ptr) (w : World) :
    (h = w.i2c_state_machine_struct.I2Cx) = True ∨
      (h = w.i2c_state_machine_struct.I2Cx) = False := by
  by_cases hx : h = w.i2c_state_machine_struct.I2Cx
  · exact Or.inl (eq_true hx)
  · exact Or.inr (eq_false hx)

/-- Reading a descriptor after a store through a descriptor pointer. -/
theorem deref_store (w : World) (p q : SmPtr) (sm : I2C_STATE_MACHINE) :
    (w.store q sm).deref p = if p = q then sm else w.deref p := by
  cases p <;> cases q <;> rfl

/-- Appending to the trace changes no descriptor. -/
theorem deref_emit (w : World) (p : SmPtr) (es : List Effect) :
    (w.emit es).deref p = w.deref p := by
  cases p <;> rfl

/-- A store through a data pointer changes no descriptor. -/
theorem deref_poke (w : World) (p : SmPtr) (d : DataPtr) (v : Nat) :
    (w.poke d v).deref p = w.deref p := by
  cases p <;> rfl

/-- A store through a descriptor pointer changes no counter. -/
theorem lowest_energy_mode_store (w : World) (q : SmPtr) (sm : I2C_STATE_MACHINE) :
    (w.store q sm).lowest_energy_mode = w.lowest_energy_mode := by
  cases q <;> rfl

/-- Appending to the trace changes no counter. -/
theorem lowest_energy_mode_emit (w : World) (es : List Effect) :
    (w.emit es).lowest_energy_mode = w.lowest_energy_mode := rfl

/-- A store through a data pointer changes no counter. -/
theorem lowest_energy_mode_poke (w : World) (d : DataPtr) (v : Nat) :
    (w.poke d v).lowest_energy_mode = w.lowest_energy_mode := rfl

/-- Storing a descriptor value with the busy flag the descriptor already has changes no
busy flag. -/
theorem busy_store (w : World) (p q : SmPtr) (sm : I2C_STATE_MACHINE)
    (h : sm.i2c_busy = (w.deref q).i2c_busy) :
    ((w.store q sm).deref p).i2c_busy = (w.deref p).i2c_busy := by
  rw [deref_store]
  split_ifs with hp
  · rw [h, hp]
  · rfl

/-! ## C1 -/

/-- C1: on either bus, for every slave address and register (in particular every 7-bit
address and 8-bit register), each direction and each byte count `n` in {1, 2}, from a state
whose EM2 counter is not negative: after an accepted `i2c_start`, the documented interrupt
sequence (read: three acknowledges, `n` data-received, stop-completed; write: one
acknowledge, `n + 1` further acknowledges, stop-completed) runs without a fatal assertion,
whatever the hardware registers read as; afterwards the descriptor's busy flag is false and
`add_scheduled_event` has been called exactly once since the launch, with the completion
event given at launch. -/
theorem C1_documented_sequence_completes (i2c0_idle : Bool) (bus : I2C_Ptr)
    (hbus : bus = .I2C0 ∨ bus = .I2C1) (slave_address slave_register : Nat)
    (read_write : Bool) (data : DataPtr) (si_read_cb n : Nat) (hn : n = 1 ∨ n = 2)
    (tx rx : Nat → Nat) (w w1 : World) (hinv : 0 ≤ w.lowest_energy_mode I2C_EM_BLOCK)
    (hstart : i2c_start i2c0_idle bus slave_address slave_register read_write data
      si_read_cb n w = .ok w1) :
    ∃ w2, deliver (descriptor_of bus) (documented_sequence read_write n tx rx) w1 = .ok w2 ∧
      (w2.deref (descriptor_of bus)).i2c_busy = false ∧
      ∃ es, w2.trace = w.trace ++ es ∧ posted es = [si_read_cb] := by
  rw [i2c_start_ok_iff] at hstart
  obtain ⟨-, -, rfl⟩ := hstart
  rcases handle_cases .I2C0 w with hx | hx
  all_goals
    rcases hbus with rfl | rfl <;> rcases hn with rfl | rfl <;> cases read_write <;>
    simp [documented_sequence, acks, rxdatavs, deliver, Interrupt.handle, i2c_ack, i2c_rxdatav,
      i2c_mstop, descriptor_of, World.deref, World.store, World.emit, World.poke,
      World.sleep_unblock_mode, sleep_unblock_mode, World.add_scheduled_event,
      EnergyModes.set, posted, hinv, hx, UINT32_MOD, u32_dec]

/-- C1 at a concrete input: the two-byte humidity read on `I2C1` from the start-up
state. -/
theorem C1_documented_sequence_completes_witness :
    ∃ w2, deliver (descriptor_of .I2C1)
        (documented_sequence true 2 (fun _ => 0) (fun _ => 0x68))
        (final (i2c_start true .I2C1 0x40 0xF5 true .humidity_data SI7021_READ_CB 2
          World.zero)) = .ok w2 ∧
      (w2.deref (descriptor_of .I2C1)).i2c_busy = false ∧
      ∃ es, w2.trace = World.zero.trace ++ es ∧ posted es = [SI7021_READ_CB] :=
  C1_documented_sequence_completes true .I2C1 (Or.inr rfl) 0x40 0xF5 true .humidity_data
    SI7021_READ_CB 2 (Or.inr rfl) (fun _ => 0) (fun _ => 0x68) World.zero _
    (by decide) rfl

/-! ## C2 -/

/-- C2: end-to-end humidity read.  From a world with a freshly opened scheduler and
arbiter, the launch made by `si7021_read` (two-byte read of register 0xF5 from slave 0x40 on
`I2C1`) is accepted when the hardware test passes, and the interrupts acknowledge,
acknowledge, acknowledge, data-received 0x68, data-received 0x3A, stop-completed run without
a fatal assertion; afterwards `humidity_data` is 0x683A whatever it held before, the busy
flag is false, the completion event bit is set in `get_scheduled_events` (it is the only
pending event and was posted once), and every vote counter, EM2 included, has its
pre-launch value. -/
theorem C2_humidity_read_end_to_end (w : World) (cb : Nat) (tx : Nat → Nat)
    (hsched : w.event_scheduled = scheduler_open)
    (hsleep : w.lowest_energy_mode = sleep_open) :
    ∃ w1 w2, si7021_read true cb w = .ok w1 ∧
      deliver .i2c_state_machine_struct
        [.ACK (tx 0), .ACK (tx 1), .ACK (tx 2), .RXDATAV 0x68, .RXDATAV 0x3A, .MSTOP] w1
        = .ok w2 ∧
      w2.mem .humidity_data = 0x683A ∧
      w2.i2c_state_machine_struct.i2c_busy = false ∧
      get_scheduled_events w2.event_scheduled &&& SI7021_READ_CB = SI7021_READ_CB ∧
      get_scheduled_events w2.event_scheduled = SI7021_READ_CB ∧
      (∃ es, w2.trace = w.trace ++ es ∧ posted es = [SI7021_READ_CB]) ∧
      w2.lowest_energy_mode I2C_EM_BLOCK = w.lowest_energy_mode I2C_EM_BLOCK ∧
      w2.lowest_energy_mode = w.lowest_energy_mode := by
  have h5 : w.lowest_energy_mode I2C_EM_BLOCK + 1 ≤ 5 := by simp [hsleep, sleep_open]
  have hstart := (i2c_start_ok_iff true SI7021_I2C SI7021_SLAVE_ADDRESS SI7021_COMMAND true
    .humidity_data SI7021_READ_CB I2C_BYTES_2 w _).2 ⟨rfl, h5, rfl⟩
  suffices h : ∀ w1, si7021_read true cb w = .ok w1 →
      ∃ w2, deliver .i2c_state_machine_struct
        [.ACK (tx 0), .ACK (tx 1), .ACK (tx 2), .RXDATAV 0x68, .RXDATAV 0x3A, .MSTOP] w1
        = .ok w2 ∧
      w2.mem .humidity_data = 0x683A ∧
      w2.i2c_state_machine_struct.i2c_busy = false ∧
      get_scheduled_events w2.event_scheduled &&& SI7021_READ_CB = SI7021_READ_CB ∧
      get_scheduled_events w2.event_scheduled = SI7021_READ_CB ∧
      (∃ es, w2.trace = w.trace ++ es ∧ posted es = [SI7021_READ_CB]) ∧
      w2.lowest_energy_mode I2C_EM_BLOCK = w.lowest_energy_mode I2C_EM_BLOCK ∧
      w2.lowest_energy_mode = w.lowest_energy_mode by
    obtain ⟨w2, h2⟩ := h _ hstart
    exact ⟨_, w2, hstart, h2⟩
  intro w1 hw1
  rw [si7021_read, i2c_start_ok_iff] at hw1
  obtain ⟨-, -, rfl⟩ := hw1
  simp [deliver, Interrupt.handle, i2c_ack, i2c_rxdatav, i2c_mstop, descriptor_of,
    World.deref, World.store, World.emit, World.poke, World.sleep_unblock_mode,
    sleep_unblock_mode, World.add_scheduled_event, add_scheduled_event,
    get_scheduled_events, EnergyModes.set, posted, hsched, hsleep, scheduler_open,
    UINT32_MOD, u32_dec, sleep_open]
  funext j
  simp [EnergyModes.set, sleep_open]

/-- C2 at the start-up state, with `TXDATA` reading as 0. -/
theorem C2_humidity_read_end_to_end_witness :
    ∃ w1 w2, si7021_read true SI7021_READ_CB World.zero = .ok w1 ∧
      deliver .i2c_state_machine_struct
        [.ACK 0, .ACK 0, .ACK 0, .RXDATAV 0x68, .RXDATAV 0x3A, .MSTOP] w1 = .ok w2 ∧
      w2.mem .humidity_data = 0x683A ∧
      w2.i2c_state_machine_struct.i2c_busy = false ∧
      get_scheduled_events w2.event_scheduled &&& SI7021_READ_CB = SI7021_READ_CB ∧
      get_scheduled_events w2.event_scheduled = SI7021_READ_CB ∧
      (∃ es, w2.trace = World.zero.trace ++ es ∧ posted es = [SI7021_READ_CB]) ∧
      w2.lowest_energy_mode I2C_EM_BLOCK = World.zero.lowest_energy_mode I2C_EM_BLOCK ∧
      w2.lowest_energy_mode = World.zero.lowest_energy_mode :=
  C2_humidity_read_end_to_end World.zero SI7021_READ_CB (fun _ => 0) rfl rfl

/-! ## C3 -/

/-- C3, as amended: on the `I2C1` descriptor `i2c_state_machine_struct`, in the transfer
phase of a read with two bytes to go, for every first byte `b1` below 256, every second
value `b2` and every prior buffer content, the two data-received interrupts run without a
fatal assertion and leave the result buffer equal to `(b1 << 8) | b2`. -/
theorem C3_i2c1_read_is_big_endian (w : World) (b1 b2 : Nat) (hb1 : b1 < 256)
    (hphase : w.i2c_state_machine_struct.current_state = End_Sensing)
    (hbytes : w.i2c_state_machine_struct.num_transfer_bytes = 2) :
    ∃ w2, deliver .i2c_state_machine_struct [.RXDATAV b1, .RXDATAV b2] w = .ok w2 ∧
      w2.mem w.i2c_state_machine_struct.data = (b1 <<< 8) ||| b2 := by
  have hlt : b1 <<< 8 < UINT32_MOD := by
    rw [Nat.shiftLeft_eq]
    simp only [UINT32_MOD]
    omega
  have hmod : b1 <<< 8 % 4294967296 = b1 <<< 8 := Nat.mod_eq_of_lt hlt
  simp [deliver, Interrupt.handle, i2c_rxdatav, World.deref, World.store, World.emit,
    World.poke, hphase, hbytes, UINT32_MOD, u32_dec, hmod]

/-- C3 at a concrete input: the humidity read after its three acknowledges. -/
theorem C3_i2c1_read_is_big_endian_witness :
    ∃ w2, deliver .i2c_state_machine_struct [.RXDATAV 0x68, .RXDATAV 0x3A]
        (final (deliver .i2c_state_machine_struct [.ACK 0, .ACK 0, .ACK 0]
          (final (si7021_read true SI7021_READ_CB World.zero)))) = .ok w2 ∧
      w2.mem (final (deliver .i2c_state_machine_struct [.ACK 0, .ACK 0, .ACK 0]
          (final (si7021_read true SI7021_READ_CB World.zero)))).i2c_state_machine_struct.data
        = (0x68 <<< 8) ||| 0x3A :=
  C3_i2c1_read_is_big_endian _ 0x68 0x3A (by decide) rfl rfl

/-- C3 as stated fails on the `I2C0` descriptor: the two-byte read launched by `veml_read`
from the start-up state, after its three acknowledges, receives 0x68 and then 0x3A and
leaves `light_data` equal to 0x3A68, not to `(0x68 << 8) | 0x3A`. -/
theorem C3_counterexample_i2c0_read :
    ∃ w2, deliver .veml_i2c_state_machine_struct [.RXDATAV 0x68, .RXDATAV 0x3A]
        (final (deliver .veml_i2c_state_machine_struct [.ACK 0, .ACK 0, .ACK 0]
          (final (veml_read true VEML_CB World.zero)))) = .ok w2 ∧
      w2.mem .light_data = 0x3A68 ∧
      w2.mem .light_data ≠ (0x68 <<< 8) ||| 0x3A :=
  ⟨_, rfl, rfl, by decide⟩

/-! ## C4 -/

/-- The launch guard of `i2c_start` is the assertion on the hardware state of the `I2C0`
peripheral, whatever bus the launch names: when `I2C0` does not report idle the call is
rejected with a fatal assertion and nothing has been changed at that point, also for a
launch on `I2C1`.  The state of `I2C1` and the busy flag of the descriptor are not
consulted. -/
theorem i2c_start_guard_tests_I2C0 (i2cx : I2C_Ptr) (slave_address slave_register : Nat)
    (read_write : Bool) (data : DataPtr) (si_read_cb num_bytes : Nat) (w : World) :
    i2c_start false i2cx slave_address slave_register read_write data si_read_cb num_bytes w
      = .error w := by
  simp [i2c_start]

/-- C4: the code does not keep the contract.  With the descriptor of the bus busy and the
guard of `i2c_start` (the hardware test on `I2C0`) passing, the launch is accepted: it
overwrites the descriptor (the register byte changes), takes a second EM2 vote and issues
START and the address byte.  On `I2C1` the descriptor is busy with the humidity read just
launched, and the guard does not look at `I2C1`.  On `I2C0` the descriptor is busy in the
`Stop` phase, after STOP was issued and before stop-completed is handled; the stop-completed
interrupt of the first transaction then finds the descriptor in `Start_Command` and ends in
a fatal assertion, with the completion event of the first transaction never posted. -/
theorem C4_busy_launch_is_accepted :
    (World.humidity_read_launched.i2c_state_machine_struct.i2c_busy = true ∧
      World.humidity_read_launched.lowest_energy_mode EM2 = 1 ∧
      World.humidity_read_launched.i2c_state_machine_struct.slave_register = 0xF5 ∧
      ∃ w1, i2c_start true .I2C1 0x40 0xE7 true .humidity_data SI7021_READ_CB 1
          World.humidity_read_launched = .ok w1 ∧
        w1.i2c_state_machine_struct.slave_register = 0xE7 ∧
        w1.lowest_energy_mode EM2 = 2 ∧
        w1.trace = World.humidity_read_launched.trace ++
          [.sleep_block_mode EM2, .CMD .I2C1 .START, .TXDATA .I2C1 0x80]) ∧
    (World.light_read_stopping.veml_i2c_state_machine_struct.i2c_busy = true ∧
      World.light_read_stopping.veml_i2c_state_machine_struct.current_state = Stop ∧
      World.light_read_stopping.lowest_energy_mode EM2 = 1 ∧
      World.light_read_stopping.veml_i2c_state_machine_struct.slave_register = 4 ∧
      World.light_read_stopping.event_scheduled = 0 ∧
      ∃ w1, i2c_start true .I2C0 0x48 0x00 false .light_data VEML_CB 2
          World.light_read_stopping = .ok w1 ∧
        w1.veml_i2c_state_machine_struct.slave_register = 0 ∧
        w1.veml_i2c_state_machine_struct.current_state = Start_Command ∧
        w1.lowest_energy_mode EM2 = 2 ∧
        w1.trace = World.light_read_stopping.trace ++
          [.sleep_block_mode EM2, .CMD .I2C0 .START, .TXDATA .I2C0 0x90] ∧
        i2c_mstop .veml_i2c_state_machine_struct w1 = .error w1 ∧
        w1.event_scheduled = 0) :=
  ⟨⟨rfl, rfl, rfl, _, rfl, rfl, rfl, rfl⟩,
    ⟨rfl, rfl, rfl, rfl, rfl, _, rfl, rfl, rfl, rfl, rfl, rfl, rfl⟩⟩

/-! ## C5 -/

/-- C5: every (phase, interrupt kind) pair absent from the transition table ends in a fatal
assertion, reached with the world unchanged: acknowledge in `Stop`, in `End_Sensing`
(Transfer) of a read and in any phase value above `Stop`; not-acknowledge in every phase
value other than `Wait_Read` (AwaitReadRestart); data-received in every phase value other
than `End_Sensing`; stop-completed in every phase value other than `Stop`.  Phase values
outside the six enumerated ones are covered by each of the four parts. -/
theorem C5_absent_pairs_are_fatal (i2c_sm : SmPtr) (TXDATA RXDATA : Nat) (w : World) :
    (((w.deref i2c_sm).current_state = Stop ∨
        ((w.deref i2c_sm).current_state = End_Sensing ∧
          (w.deref i2c_sm).read_write = I2C_READ) ∨
        Stop < (w.deref i2c_sm).current_state) →
      i2c_ack i2c_sm TXDATA w = .error w) ∧
    ((w.deref i2c_sm).current_state ≠ Wait_Read → i2c_nack i2c_sm w = .error w) ∧
    ((w.deref i2c_sm).current_state ≠ End_Sensing →
      i2c_rxdatav i2c_sm RXDATA w = .error w) ∧
    ((w.deref i2c_sm).current_state ≠ Stop → i2c_mstop i2c_sm w = .error w) := by
  refine ⟨?_, ?_, ?_, ?_⟩
  · rintro (h | ⟨h, hr⟩ | h)
    · simp [i2c_ack, h]
    · simp [i2c_ack, h, hr]
    · have h0 : (w.deref i2c_sm).current_state ≠ 0 := by simp only [Stop] at h; omega
      have h1 : (w.deref i2c_sm).current_state ≠ 1 := by simp only [Stop] at h; omega
      have h2 : (w.deref i2c_sm).current_state ≠ 2 := by simp only [Stop] at h; omega
      have h3 : (w.deref i2c_sm).current_state ≠ 3 := by simp only [Stop] at h; omega
      have h4 : (w.deref i2c_sm).current_state ≠ 4 := by simp only [Stop] at h; omega
      simp [i2c_ack, h0, h1, h2, h3, h4]
  · intro h
    have h3 : (w.deref i2c_sm).current_state ≠ 3 := h
    simp [i2c_nack, h3]
  · intro h
    have h4 : (w.deref i2c_sm).current_state ≠ 4 := h
    simp [i2c_rxdatav, h4]
  · intro h
    have h5 : (w.deref i2c_sm).current_state ≠ 5 := h
    simp [i2c_mstop, h5]

/-- C5 at a concrete input: the `I2C1` descriptor with the phase value 7, outside the
enumeration; all four handlers are fatal. -/
theorem C5_absent_pairs_are_fatal_witness :
    i2c_ack .i2c_state_machine_struct 0
        (World.zero.store .i2c_state_machine_struct
          { I2C_STATE_MACHINE.zero with current_state := 7 })
      = .error (World.zero.store .i2c_state_machine_struct
          { I2C_STATE_MACHINE.zero with current_state := 7 }) ∧
    i2c_nack .i2c_state_machine_struct
        (World.zero.store .i2c_state_machine_struct
          { I2C_STATE_MACHINE.zero with current_state := 7 })
      = .error (World.zero.store .i2c_state_machine_struct
          { I2C_STATE_MACHINE.zero with current_state := 7 }) ∧
    i2c_rxdatav .i2c_state_machine_struct 0
        (World.zero.store .i2c_state_machine_struct
          { I2C_STATE_MACHINE.zero with current_state := 7 })
      = .error (World.zero.store .i2c_state_machine_struct
          { I2C_STATE_MACHINE.zero with current_state := 7 }) ∧
    i2c_mstop .i2c_state_machine_struct
        (World.zero.store .i2c_state_machine_struct
          { I2C_STATE_MACHINE.zero with current_state := 7 })
      = .error (World.zero.store .i2c_state_machine_struct
          { I2C_STATE_MACHINE.zero with current_state := 7 }) :=
  ⟨(C5_absent_pairs_are_fatal .i2c_state_machine_struct 0 0 _).1 (Or.inr (Or.inr (by decide))),
   (C5_absent_pairs_are_fatal .i2c_state_machine_struct 0 0 _).2.1 (by decide),
   (C5_absent_pairs_are_fatal .i2c_state_machine_struct 0 0 _).2.2.1 (by decide),
   (C5_absent_pairs_are_fatal .i2c_state_machine_struct 0 0 _).2.2.2 (by decide)⟩

/-! ## C6 -/

/-- What a handler that returns does to the counters and the busy flags: either it leaves
all of them alone, or it is the stop-completed handler in the `Stop` phase, which takes the
EM2 counter down by one (it was at least 1), clears the busy flag of its descriptor and
leaves the other busy flag alone. -/
theorem handle_ok_cases (q : SmPtr) (irq : Interrupt) (w w1 : World)
    (h : irq.handle q w = .ok w1) :
    (w1.lowest_energy_mode = w.lowest_energy_mode ∧
      ∀ p, (w1.deref p).i2c_busy = (w.deref p).i2c_busy) ∨
    (irq = .MSTOP ∧ (w.deref q).current_state = Stop ∧
      w1.lowest_energy_mode =
        w.lowest_energy_mode.set I2C_EM_BLOCK (w.lowest_energy_mode I2C_EM_BLOCK - 1) ∧
      1 ≤ w.lowest_energy_mode I2C_EM_BLOCK ∧
      (w1.deref q).i2c_busy = false ∧
      ∀ p, p ≠ q → (w1.deref p).i2c_busy = (w.deref p).i2c_busy) := by
  cases irq with
  | ACK t =>
    left
    simp only [Interrupt.handle, i2c_ack] at h
    split_ifs at h <;> cases h <;>
      simp [lowest_energy_mode_emit, lowest_energy_mode_store, deref_emit, busy_store]
  | NACK =>
    left
    simp only [Interrupt.handle, i2c_nack] at h
    split_ifs at h
    cases h
    simp [lowest_energy_mode_emit, lowest_energy_mode_store, deref_emit, busy_store]
  | RXDATAV r =>
    left
    simp only [Interrupt.handle, i2c_rxdatav] at h
    split_ifs at h <;> cases h <;>
      simp [lowest_energy_mode_emit, lowest_energy_mode_poke, lowest_energy_mode_store,
        deref_emit, deref_poke, busy_store]
  | MSTOP =>
    right
    simp only [Interrupt.handle, i2c_mstop] at h
    split_ifs at h with h0 h1 h2 h3 h4 h5
    simp only [World.sleep_unblock_mode, sleep_unblock_mode] at h
    split_ifs at h with hc
    cases h
    simp only [EnergyModes.set, if_true, lowest_energy_mode_emit] at hc
    have h1le : 1 ≤ w.lowest_energy_mode I2C_EM_BLOCK := by
      clear h0 h1 h2 h3 h4 h5
      omega
    refine ⟨rfl, h5, ?_, h1le, ?_, fun p hp => ?_⟩
    · rw [lowest_energy_mode_store]
      rfl
    · rw [deref_store, if_pos rfl]
    · rw [deref_store, if_neg hp]
      cases p <;> rfl

/-- A run without a stop-completed interrupt on a descriptor keeps the busy flag of that
descriptor. -/
theorem run_keeps_busy (p : SmPtr) (evs : List (SmPtr × Interrupt)) (w w2 : World)
    (hrun : run evs w = .ok w2) (hno : (p, Interrupt.MSTOP) ∉ evs) :
    (w2.deref p).i2c_busy = (w.deref p).i2c_busy := by
  induction evs generalizing w with
  | nil =>
    cases hrun
    rfl
  | cons e rest ih =>
    obtain ⟨q, irq⟩ := e
    simp only [run] at hrun
    cases hh : irq.handle q w with
    | error w1 => simp [hh] at hrun
    | ok w1 =>
      simp only [hh] at hrun
      have hrest : (p, Interrupt.MSTOP) ∉ rest := fun hm => hno (List.mem_cons_of_mem _ hm)
      rw [ih w1 hrun hrest]
      rcases handle_ok_cases q irq w w1 hh with ⟨-, hb⟩ | ⟨hirq, -, -, -, -, hb⟩
      · exact hb p
      · apply hb p
        intro hpq
        apply hno
        rw [hpq, hirq]
        exact List.mem_cons_self _ _

/-- C6: in every state reached from an accepted `i2c_start` by any sequence of
acknowledge, not-acknowledge, data-received and stop-completed handler steps (on either
descriptor) none of which is fatal, the busy flag of the launched descriptor is true as
long as the stop-completed handler has not run on it; and from any reached state, a handler
step that returns and takes that busy flag from true to false is the stop-completed handler
on that descriptor, run in the `Stop` phase. -/
theorem C6_busy_until_stop_completed (i2c0_idle : Bool) (bus : I2C_Ptr)
    (slave_address slave_register : Nat) (read_write : Bool) (data : DataPtr)
    (si_read_cb num_bytes : Nat) (w w1 w2 : World) (evs : List (SmPtr × Interrupt))
    (hstart : i2c_start i2c0_idle bus slave_address slave_register read_write data
      si_read_cb num_bytes w = .ok w1)
    (hrun : run evs w1 = .ok w2) :
    (w1.deref (descriptor_of bus)).i2c_busy = true ∧
    ((descriptor_of bus, Interrupt.MSTOP) ∉ evs →
      (w2.deref (descriptor_of bus)).i2c_busy = true) ∧
    (∀ (q : SmPtr) (irq : Interrupt) (w3 : World), irq.handle q w2 = .ok w3 →
      (w2.deref (descriptor_of bus)).i2c_busy = true →
      (w3.deref (descriptor_of bus)).i2c_busy = false →
      q = descriptor_of bus ∧ irq = .MSTOP ∧
        (w2.deref (descriptor_of bus)).current_state = Stop) := by
  have hb1 : (w1.deref (descriptor_of bus)).i2c_busy = true := by
    rw [i2c_start_ok_iff] at hstart
    obtain ⟨-, -, rfl⟩ := hstart
    cases hd : descriptor_of bus <;> rfl
  refine ⟨hb1, fun hno => ?_, fun q irq w3 h3 hbusy hclear => ?_⟩
  · rw [run_keeps_busy _ evs w1 w2 hrun hno, hb1]
  · rcases handle_ok_cases q irq w2 w3 h3 with ⟨-, hb⟩ | ⟨hirq, hst, -, -, -, hb⟩
    · rw [hb, hbusy] at hclear
      cases hclear
    · by_cases hq : descriptor_of bus = q
      · subst hq
        exact ⟨rfl, hirq, hst⟩
      · rw [hb _ hq, hbusy] at hclear
        cases hclear

/-- C6 at a concrete input: the humidity read after its first two acknowledges. -/
theorem C6_busy_until_stop_completed_witness :
    (World.humidity_read_launched.deref (descriptor_of .I2C1)).i2c_busy = true ∧
    ((descriptor_of .I2C1, Interrupt.MSTOP) ∉
        [(SmPtr.i2c_state_machine_struct, Interrupt.ACK 0),
         (SmPtr.i2c_state_machine_struct, Interrupt.ACK 0)] →
      ((final (run [(SmPtr.i2c_state_machine_struct, Interrupt.ACK 0),
          (SmPtr.i2c_state_machine_struct, Interrupt.ACK 0)]
          World.humidity_read_launched)).deref (descriptor_of .I2C1)).i2c_busy = true) ∧
    (∀ (q : SmPtr) (irq : Interrupt) (w3 : World),
      irq.handle q (final (run [(SmPtr.i2c_state_machine_struct, Interrupt.ACK 0),
          (SmPtr.i2c_state_machine_struct, Interrupt.ACK 0)]
          World.humidity_read_launched)) = .ok w3 →
      ((final (run [(SmPtr.i2c_state_machine_struct, Interrupt.ACK 0),
          (SmPtr.i2c_state_machine_struct, Interrupt.ACK 0)]
          World.humidity_read_launched)).deref (descriptor_of .I2C1)).i2c_busy = true →
      (w3.deref (descriptor_of .I2C1)).i2c_busy = false →
      q = descriptor_of .I2C1 ∧ irq = .MSTOP ∧
        ((final (run [(SmPtr.i2c_state_machine_struct, Interrupt.ACK 0),
          (SmPtr.i2c_state_machine_struct, Interrupt.ACK 0)]
          World.humidity_read_launched)).deref (descriptor_of .I2C1)).current_state = Stop) :=
  C6_busy_until_stop_completed true .I2C1 0x40 0xF5 true .humidity_data SI7021_READ_CB 2
    World.zero World.humidity_read_launched _
    [(SmPtr.i2c_state_machine_struct, Interrupt.ACK 0),
     (SmPtr.i2c_state_machine_struct, Interrupt.ACK 0)] rfl rfl

/-! ## C7 -/

/-- The loop of `current_block_energy_mode` written out: the first index with a nonzero
counter, and `MAX_ENERGY_MODES - 1` when there is none. -/
theorem current_block_energy_mode_eq (a : EnergyModes) :
    current_block_energy_mode a =
      if a EM0 ≠ 0 then 0 else if a EM1 ≠ 0 then 1 else if a EM2 ≠ 0 then 2
      else if a EM3 ≠ 0 then 3 else 4 := by
  have e0 : (⟨MAX_ENERGY_MODES - (4 + 1), by decide⟩ : Fin MAX_ENERGY_MODES) = EM0 := rfl
  have e1 : (⟨MAX_ENERGY_MODES - (3 + 1), by decide⟩ : Fin MAX_ENERGY_MODES) = EM1 := rfl
  have e2 : (⟨MAX_ENERGY_MODES - (2 + 1), by decide⟩ : Fin MAX_ENERGY_MODES) = EM2 := rfl
  have e3 : (⟨MAX_ENERGY_MODES - (1 + 1), by decide⟩ : Fin MAX_ENERGY_MODES) = EM3 := rfl
  have e4 : (⟨MAX_ENERGY_MODES - (0 + 1), by decide⟩ : Fin MAX_ENERGY_MODES) = EM4 := rfl
  simp only [current_block_energy_mode, current_block_energy_mode_loop, e0, e1, e2, e3, e4]
  simp
  split_ifs <;> rfl

/-- A run that `exec` accepts stays within the reachable states. -/
theorem exec_reachable (allowed : World → Action → Bool) (as : List Action) (w w1 : World)
    (hw : Reachable allowed w) (h : exec allowed as w = some w1) : Reachable allowed w1 := by
  induction as generalizing w with
  | nil =>
    simp only [exec, Option.some.injEq] at h
    exact h ▸ hw
  | cons a rest ih =>
    simp only [exec] at h
    split_ifs at h with ha
    cases hstep : a.apply w with
    | error w2 => simp [hstep] at h
    | ok w2 =>
      simp only [hstep] at h
      exact ih w2 (Reachable.step w a w2 hw ha hstep) h

/-- C8: after every accepted `i2c_start`, whatever the direction, the descriptor selected
by the bus handle holds the given handle, slave address, register, direction, byte count,
buffer pointer and completion event with the transferred-byte counter 0, busy true and
phase `Start_Command`; the EM2 vote counter is one higher and the other counters are
unchanged; what was appended to the trace is the vote followed by the bus output, a START
command and then the address byte `(slave_address << 1) | 0`; and for a 7-bit address that
byte equals `2 * slave_address`, is below 256 and has direction bit 0. -/
theorem C8_accepted_start (i2c0_idle : Bool) (i2cx : I2C_Ptr)
    (slave_address slave_register : Nat) (read_write : Bool) (data : DataPtr)
    (si_read_cb num_bytes : Nat) (w w1 : World)
    (hstart : i2c_start i2c0_idle i2cx slave_address slave_register read_write data
      si_read_cb num_bytes w = .ok w1) :
    w1.deref (descriptor_of i2cx) =
      { current_state := Start_Command, I2Cx := i2cx, slave_address := slave_address,
        slave_register := slave_register, read_write := read_write,
        num_transfer_bytes := num_bytes, bytes_transfered := 0, data := data,
        si_cb := si_read_cb, i2c_busy := true } ∧
    w1.lowest_energy_mode EM2 = w.lowest_energy_mode EM2 + 1 ∧
    (∀ j, j ≠ EM2 → w1.lowest_energy_mode j = w.lowest_energy_mode j) ∧
    w1.trace = w.trace ++
      [.sleep_block_mode EM2, .CMD i2cx .START,
       .TXDATA i2cx (((slave_address <<< 1) % UINT32_MOD) ||| 0)] ∧
    (∃ es, w1.trace = w.trace ++ es ∧
      bus_output es =
        [.CMD i2cx .START, .TXDATA i2cx (((slave_address <<< 1) % UINT32_MOD) ||| 0)]) ∧
    (slave_address < 128 →
      ((slave_address <<< 1) % UINT32_MOD) ||| 0 = 2 * slave_address ∧
      ((slave_address <<< 1) % UINT32_MOD) ||| 0 < 256 ∧
      (((slave_address <<< 1) % UINT32_MOD) ||| 0) % 2 = 0) := by
  rw [i2c_start_ok_iff] at hstart
  obtain ⟨-, -, rfl⟩ := hstart
  refine ⟨?_, ?_, ?_, ?_, ?_, ?_⟩
  · rw [deref_emit, deref_store, if_pos rfl]
  · simp [lowest_energy_mode_emit, lowest_energy_mode_store, EnergyModes.set]
  · intro j hj
    simp [lowest_energy_mode_emit, lowest_energy_mode_store, EnergyModes.set, hj]
  · cases descriptor_of i2cx <;> simp [World.emit, World.store]
  · refine ⟨[.sleep_block_mode EM2, .CMD i2cx .START,
      .TXDATA i2cx (((slave_address <<< 1) % UINT32_MOD) ||| 0)], ?_, rfl⟩
    cases descriptor_of i2cx <;> simp [World.emit, World.store]
  · intro hsa
    have h2 : slave_address <<< 1 = 2 * slave_address := by
      rw [Nat.shiftLeft_eq]
      omega
    have hm : (2 * slave_address) % UINT32_MOD = 2 * slave_address :=
      Nat.mod_eq_of_lt (by simp only [UINT32_MOD]; omega)
    rw [h2, hm, Nat.or_zero]
    omega

/-- C8 at a concrete input: the launch of the humidity read from the start-up world. -/
theorem C8_accepted_start_witness :
    World.humidity_read_launched.deref (descriptor_of .I2C1) =
      { current_state := Start_Command, I2Cx := .I2C1, slave_address := 0x40,
        slave_register := 0xF5, read_write := true,
        num_transfer_bytes := 2, bytes_transfered := 0, data := .humidity_data,
        si_cb := SI7021_READ_CB, i2c_busy := true } ∧
    World.humidity_read_launched.lowest_energy_mode EM2 =
      World.zero.lowest_energy_mode EM2 + 1 ∧
    (∀ j, j ≠ EM2 →
      World.humidity_read_launched.lowest_energy_mode j = World.zero.lowest_energy_mode j) ∧
    World.humidity_read_launched.trace = World.zero.trace ++
      [.sleep_block_mode EM2, .CMD .I2C1 .START,
       .TXDATA .I2C1 (((0x40 <<< 1) % UINT32_MOD) ||| 0)] ∧
    (∃ es, World.humidity_read_launched.trace = World.zero.trace ++ es ∧
      bus_output es =
        [.CMD .I2C1 .START, .TXDATA .I2C1 (((0x40 <<< 1) % UINT32_MOD) ||| 0)]) ∧
    (0x40 < 128 →
      ((0x40 <<< 1) % UINT32_MOD) ||| 0 = 2 * 0x40 ∧
      ((0x40 <<< 1) % UINT32_MOD) ||| 0 < 256 ∧
      (((0x40 <<< 1) % UINT32_MOD) ||| 0) % 2 = 0) :=
  C8_accepted_start true .I2C1 0x40 0xF5 true .humidity_data SI7021_READ_CB 2 World.zero
    World.humidity_read_launched rfl

/-! ## C9 -/

/-- C9, as amended: `check_busy` compares its argument with the handles stored in the two
descriptors.  In every state in which the `I2C1` descriptor holds the handle `I2C1` (a
transaction has been launched on `I2C1`), `check_busy(I2C1)` returns that descriptor's busy
flag; in every state in which the `I2C0` descriptor holds the handle `I2C0` and the `I2C1`
descriptor does not, `check_busy(I2C0)` returns the `I2C0` descriptor's busy flag; and
`check_busy(h)` returns true for every handle `h` that differs from both stored handles. -/
theorem C9_check_busy (w : World) (h : I2C_Ptr) :
    (w.i2c_state_machine_struct.I2Cx = .I2C1 →
      check_busy .I2C1 w = w.i2c_state_machine_struct.i2c_busy) ∧
    (w.veml_i2c_state_machine_struct.I2Cx = .I2C0 →
      w.i2c_state_machine_struct.I2Cx ≠ .I2C0 →
      check_busy .I2C0 w = w.veml_i2c_state_machine_struct.i2c_busy) ∧
    (h ≠ w.i2c_state_machine_struct.I2Cx → h ≠ w.veml_i2c_state_machine_struct.I2Cx →
      check_busy h w = true) := by
  refine ⟨fun h1 => ?_, fun h0 h1 => ?_, fun h1 h0 => ?_⟩
  · simp [check_busy, h1]
  · simp [check_busy, h0, Ne.symm h1]
  · simp [check_busy, h1, h0]

/-- C9 at a concrete input: after the launch of the humidity read the `I2C1` descriptor
holds `I2C1`; the start-up world has the `I2C0` descriptor's handle still null, so the
second part is shown on the world after the launch of the light read. -/
theorem C9_check_busy_witness :
    (check_busy .I2C1 World.humidity_read_launched =
      World.humidity_read_launched.i2c_state_machine_struct.i2c_busy) ∧
    (check_busy .I2C0 World.light_read_launched =
      World.light_read_launched.veml_i2c_state_machine_struct.i2c_busy) ∧
    (check_busy (.other 7) World.humidity_read_launched = true) :=
  ⟨(C9_check_busy World.humidity_read_launched .NULL).1 rfl,
   (C9_check_busy World.light_read_launched .NULL).2.1 rfl (by decide),
   (C9_check_busy World.humidity_read_launched (.other 7)).2.2 (by decide) (by decide)⟩

/-- C9 as stated fails in the start-up state, where both stored handles are null:
`check_busy(I2C1)` and `check_busy(I2C0)` return true although both busy flags are false,
and `check_busy` of the null handle, which is no known bus, returns false. -/
theorem C9_counterexample_initial_state :
    World.zero.i2c_state_machine_struct.i2c_busy = false ∧
    World.zero.veml_i2c_state_machine_struct.i2c_busy = false ∧
    check_busy .I2C1 World.zero = true ∧
    check_busy .I2C0 World.zero = true ∧
    check_busy .NULL World.zero = false :=
  ⟨rfl, rfl, rfl, rfl, rfl⟩

/-! ## C10 -/

/-- C10: for every state of the five vote counters, `current_block_energy_mode` returns
the smallest level `i` in 0..4 whose counter is nonzero, and returns 4 when all five
counters are zero. -/
theorem C10_current_block_energy_mode (a : EnergyModes) :
    (∀ i : Fin MAX_ENERGY_MODES, a i ≠ 0 → (∀ j : Fin MAX_ENERGY_MODES, j < i → a j = 0) →
      current_block_energy_mode a = i.val) ∧
    ((∀ i : Fin MAX_ENERGY_MODES, a i = 0) → current_block_energy_mode a = 4) := by
  rw [current_block_energy_mode_eq]
  constructor
  · intro i hi hlt
    fin_cases i
    · have hi0 : a EM0 ≠ 0 := hi
      simp [hi0]
    · have h0 : a EM0 = 0 := hlt 0 (by decide)
      have hi1 : a EM1 ≠ 0 := hi
      simp [hi1, h0]
    · have h0 : a EM0 = 0 := hlt 0 (by decide)
      have h1 : a EM1 = 0 := hlt 1 (by decide)
      have hi2 : a EM2 ≠ 0 := hi
      simp [hi2, h0, h1]
    · have h0 : a EM0 = 0 := hlt 0 (by decide)
      have h1 : a EM1 = 0 := hlt 1 (by decide)
      have h2 : a EM2 = 0 := hlt 2 (by decide)
      have hi3 : a EM3 ≠ 0 := hi
      simp [hi3, h0, h1, h2]
    · have h0 : a EM0 = 0 := hlt 0 (by decide)
      have h1 : a EM1 = 0 := hlt 1 (by decide)
      have h2 : a EM2 = 0 := hlt 2 (by decide)
      have h3 : a EM3 = 0 := hlt 3 (by decide)
      simp [h0, h1, h2, h3]
  · intro hall
    simp [hall]

/-- C10 at concrete inputs: with the only vote on level 3 the result is 3; after
`sleep_open` it is 4. -/
theorem C10_current_block_energy_mode_witness :
    current_block_energy_mode (sleep_open.set EM3 1) = (EM3 : Fin MAX_ENERGY_MODES).val ∧
    current_block_energy_mode sleep_open = 4 :=
  ⟨(C10_current_block_energy_mode (sleep_open.set EM3 1)).1 EM3 (by decide) (by decide),
   (C10_current_block_energy_mode sleep_open).2 (by decide)⟩

/-! ## C11 -/

/-- After a run of arbiter calls without a fatal assertion, every counter is its old value
plus the number of blocks minus the number of unblocks of its level. -/
theorem sleep_calls_counts (cs : List SleepCall) (a a1 : EnergyModes)
    (h : sleep_calls cs a = .ok a1) (i : Fin MAX_ENERGY_MODES) :
    a1 i = a i + (cs.count (.block i) : Int) - (cs.count (.unblock i) : Int) := by
  induction cs generalizing a with
  | nil =>
    simp only [sleep_calls, Except.ok.injEq] at h
    simp [← h]
  | cons c rest ih =>
    simp only [sleep_calls] at h
    cases hc : c.apply a with
    | error a2 => simp [hc] at h
    | ok a2 =>
      simp only [hc] at h
      rw [ih a2 h]
      cases c with
      | block EM =>
        simp only [SleepCall.apply, sleep_block_mode] at hc
        split_ifs at hc
        cases hc
        by_cases hi : i = EM
        · subst hi
          simp [EnergyModes.set, List.count_cons]
          ring
        · have hne : SleepCall.block EM ≠ SleepCall.block i := fun h => hi (by cases h; rfl)
          simp [EnergyModes.set, List.count_cons, hi, hne]
      | unblock EM =>
        simp only [SleepCall.apply, sleep_unblock_mode] at hc
        split_ifs at hc
        cases hc
        by_cases hi : i = EM
        · subst hi
          simp [EnergyModes.set, List.count_cons]
          ring
        · have hne : SleepCall.unblock EM ≠ SleepCall.unblock i := fun h => hi (by cases h; rfl)
          simp [EnergyModes.set, List.count_cons, hi, hne]

/-- C11: starting from `sleep_open`, for every sequence of `sleep_block_mode` /
`sleep_unblock_mode` calls on levels 0..4 in which no call fails and each level is unblocked
exactly as many times as it is blocked, all five counters are zero at the end and
`current_block_energy_mode` returns 4. -/
theorem C11_balanced_calls_return_to_zero (cs : List SleepCall) (a : EnergyModes)
    (hbal : ∀ L : Fin MAX_ENERGY_MODES, cs.count (.block L) = cs.count (.unblock L))
    (hok : sleep_calls cs sleep_open = .ok a) :
    (∀ i, a i = 0) ∧ current_block_energy_mode a = 4 := by
  have hz : ∀ i, a i = 0 := by
    intro i
    rw [sleep_calls_counts cs sleep_open a hok i, hbal i]
    simp [sleep_open]
  refine ⟨hz, ?_⟩
  rw [current_block_energy_mode_eq]
  simp [hz]

/-- C11 at a concrete input: block 2, block 3, unblock 2, unblock 3. -/
theorem C11_balanced_calls_return_to_zero_witness :
    (∀ i, sleep_final (sleep_calls [.block EM2, .block EM3, .unblock EM2, .unblock EM3]
        sleep_open) i = 0) ∧
      current_block_energy_mode
        (sleep_final (sleep_calls [.block EM2, .block EM3, .unblock EM2, .unblock EM3]
          sleep_open)) = 4 :=
  C11_balanced_calls_return_to_zero
    [.block EM2, .block EM3, .unblock EM2, .unblock EM3] _ (by decide) rfl

/-! ## C12 -/

/-- C12: starting from `sleep_open`, for every two distinct levels `a` and `b` in 0..4, the
sequence `sleep_block_mode(a)`; `sleep_block_mode(b)`; `sleep_unblock_mode(a)` runs without
a fatal assertion and leaves `current_block_energy_mode` equal to `b`. -/
theorem C12_block_block_unblock (a b : Fin MAX_ENERGY_MODES) (hab : a ≠ b) :
    ∃ s, sleep_calls [.block a, .block b, .unblock a] sleep_open = .ok s ∧
      current_block_energy_mode s = b.val := by
  have hba : b ≠ a := Ne.symm hab
  refine ⟨((sleep_open.set a 1).set b 1).set a 0, ?_, ?_⟩
  · simp [sleep_calls, SleepCall.apply, sleep_block_mode, sleep_unblock_mode,
      EnergyModes.set, sleep_open, hab, hba]
  · have hall : ∀ x y : Fin MAX_ENERGY_MODES, x ≠ y →
        current_block_energy_mode (((sleep_open.set x 1).set y 1).set x 0) = y.val := by
      decide
    exact hall a b hab

/-- C12 at the instance of the specification: `a = 2`, `b = 3` gives 3. -/
theorem C12_block_block_unblock_witness :
    ∃ s, sleep_calls [.block EM2, .block EM3, .unblock EM2] sleep_open = .ok s ∧
      current_block_energy_mode s = 3 :=
  C12_block_block_unblock EM2 EM3 (by decide)

/-! ## C13 -/

/-- C13: for every level `L` in 0..4 and every counter state with all counters
non-negative, `sleep_unblock_mode(L)` either returns or fails fatally, and it fails fatally
if and only if the counter of `L` is zero; when it returns, the counter of `L` is lower by
exactly one and the counters of all other levels are unchanged. -/
theorem C13_unblock (L : Fin MAX_ENERGY_MODES) (a : EnergyModes) (hnn : ∀ i, 0 ≤ a i) :
    ((∃ a1, sleep_unblock_mode L a = .error a1) ↔ a L = 0) ∧
    ((∃ a1, sleep_unblock_mode L a = .ok a1) ↔ a L ≠ 0) ∧
    (∀ a1, sleep_unblock_mode L a = .ok a1 →
      a1 L = a L - 1 ∧ ∀ j, j ≠ L → a1 j = a j) := by
  have h0 := hnn L
  by_cases hz : a L = 0
  · have hlt : ¬ (a L - 1 ≥ 0) := by omega
    simp [sleep_unblock_mode, EnergyModes.set, hz]
  · have hge : a L - 1 ≥ 0 := by omega
    refine ⟨?_, ?_, ?_⟩
    · simp [sleep_unblock_mode, EnergyModes.set, hz, hge]
    · simp [sleep_unblock_mode, EnergyModes.set, hz, hge]
    · intro a1 h1
      simp only [sleep_unblock_mode, EnergyModes.set, if_true, hge] at h1
      cases h1
      exact ⟨if_pos rfl, fun j hj => if_neg hj⟩

/-- C13 at a concrete input: level 2 with one vote. -/
theorem C13_unblock_witness :
    ((∃ a1, sleep_unblock_mode EM2 (sleep_open.set EM2 1) = .error a1) ↔
      (sleep_open.set EM2 1) EM2 = 0) ∧
    ((∃ a1, sleep_unblock_mode EM2 (sleep_open.set EM2 1) = .ok a1) ↔
      (sleep_open.set EM2 1) EM2 ≠ 0) ∧
    (∀ a1, sleep_unblock_mode EM2 (sleep_open.set EM2 1) = .ok a1 →
      a1 EM2 = (sleep_open.set EM2 1) EM2 - 1 ∧
      ∀ j, j ≠ EM2 → a1 j = (sleep_open.set EM2 1) j) :=
  C13_unblock EM2 (sleep_open.set EM2 1) (by decide)

/-! ## C14 -/

/-- A call that returns keeps every counter between 0 and 5. -/
theorem sleep_call_keeps_bounds (c : SleepCall) (a a1 : EnergyModes)
    (hb : ∀ i, 0 ≤ a i ∧ a i ≤ 5) (h : c.apply a = .ok a1) :
    ∀ i, 0 ≤ a1 i ∧ a1 i ≤ 5 := by
  intro i
  have hi := hb i
  cases c with
  | block EM =>
    simp only [SleepCall.apply, sleep_block_mode] at h
    split_ifs at h with hc
    cases h
    simp only [EnergyModes.set, if_true] at hc
    have hE := hb EM
    by_cases hie : i = EM
    · subst hie
      simp only [EnergyModes.set, if_true]
      omega
    · simp only [EnergyModes.set, if_neg hie]
      exact hi
  | unblock EM =>
    simp only [SleepCall.apply, sleep_unblock_mode] at h
    split_ifs at h with hc
    cases h
    simp only [EnergyModes.set, if_true] at hc
    have hE := hb EM
    by_cases hie : i = EM
    · subst hie
      simp only [EnergyModes.set, if_true]
      omega
    · simp only [EnergyModes.set, if_neg hie]
      exact hi

/-- A run of calls that returns keeps every counter between 0 and 5. -/
theorem sleep_calls_keep_bounds (cs : List SleepCall) (a a1 : EnergyModes)
    (hb : ∀ i, 0 ≤ a i ∧ a i ≤ 5) (h : sleep_calls cs a = .ok a1) :
    ∀ i, 0 ≤ a1 i ∧ a1 i ≤ 5 := by
  induction cs generalizing a with
  | nil =>
    simp only [sleep_calls, Except.ok.injEq] at h
    exact h ▸ hb
  | cons c rest ih =>
    simp only [sleep_calls] at h
    cases hc : c.apply a with
    | error a2 => simp [hc] at h
    | ok a2 =>
      simp only [hc] at h
      exact ih a2 (sleep_call_keeps_bounds c a a2 hb hc) h

/-- C14: in every state reached from `sleep_open` through `sleep_block_mode` and
`sleep_unblock_mode` calls on levels 0..4 none of which failed, every vote counter is at
least 0 and at most 5. -/
theorem C14_counters_bounded (cs : List SleepCall) (a : EnergyModes)
    (hok : sleep_calls cs sleep_open = .ok a) :
    ∀ i, 0 ≤ a i ∧ a i ≤ 5 :=
  sleep_calls_keep_bounds cs sleep_open a (fun _ => by simp [sleep_open]) hok

/-- C14 at a concrete input: five blocks of level 2 and one unblock, read at level 2. -/
theorem C14_counters_bounded_witness :
    0 ≤ sleep_final (sleep_calls
        [.block EM2, .block EM2, .block EM2, .block EM2, .block EM2, .unblock EM2]
        sleep_open) EM2 ∧
      sleep_final (sleep_calls
        [.block EM2, .block EM2, .block EM2, .block EM2, .block EM2, .unblock EM2]
        sleep_open) EM2 ≤ 5 :=
  C14_counters_bounded
    [.block EM2, .block EM2, .block EM2, .block EM2, .block EM2, .unblock EM2] _ rfl EM2

/-! ## C15 -/

/-- C15, as amended: for every state of the vote counters with no negative counter, the
action of `enter_sleep` is fixed by the floor `f` that `current_block_energy_mode` returns:
no low-power level is entered when `f` is 0 or 1, and otherwise the level entered is
`f - 1`, the deepest level above the blocked one; two counter states with the same floor
lead to the same action. -/
theorem C15_enter_sleep_one_above_floor (a : EnergyModes) (hnn : ∀ i, 0 ≤ a i) :
    (enter_sleep a).level =
      (if current_block_energy_mode a ≤ 1 then none
       else some (current_block_energy_mode a - 1)) ∧
    (∀ b : EnergyModes, (∀ i, 0 ≤ b i) →
      current_block_energy_mode b = current_block_energy_mode a →
      enter_sleep b = enter_sleep a) := by
  have key : ∀ c : EnergyModes, (∀ i, 0 ≤ c i) →
      enter_sleep c =
        (if current_block_energy_mode c = 0 then EMU_Call.nothing
         else if current_block_energy_mode c = 1 then EMU_Call.nothing
         else if current_block_energy_mode c = 2 then EMU_Call.EMU_EnterEM1
         else if current_block_energy_mode c = 3 then EMU_Call.EMU_EnterEM2
         else EMU_Call.EMU_EnterEM3) := by
    intro c hc
    have h0 := hc EM0
    have h1 := hc EM1
    have h2 := hc EM2
    have h3 := hc EM3
    rw [current_block_energy_mode_eq]
    simp only [enter_sleep]
    by_cases c0 : c EM0 = 0 <;> by_cases c1 : c EM1 = 0 <;> by_cases c2 : c EM2 = 0 <;>
      by_cases c3 : c EM3 = 0 <;>
      simp [c0, c1, c2, c3] <;> omega
  refine ⟨?_, fun b hb hfl => ?_⟩
  · rw [key a hnn]
    have hle : current_block_energy_mode a ≤ 4 := by
      rw [current_block_energy_mode_eq]
      split_ifs <;> decide
    generalize current_block_energy_mode a = f at hle
    interval_cases f <;> rfl
  · rw [key a hnn, key b hb, hfl]

/-- C15 at a concrete input: one vote on level 3; the floor is 3 and EM2 is entered. -/
theorem C15_enter_sleep_one_above_floor_witness :
    (enter_sleep (sleep_open.set EM3 1)).level =
      (if current_block_energy_mode (sleep_open.set EM3 1) ≤ 1 then none
       else some (current_block_energy_mode (sleep_open.set EM3 1) - 1)) ∧
    (∀ b : EnergyModes, (∀ i, 0 ≤ b i) →
      current_block_energy_mode b = current_block_energy_mode (sleep_open.set EM3 1) →
      enter_sleep b = enter_sleep (sleep_open.set EM3 1)) :=
  C15_enter_sleep_one_above_floor (sleep_open.set EM3 1) (by decide)

/-- C15 as stated fails: with one vote on level 2 the floor is 2 and `enter_sleep` calls
`EMU_EnterEM1`, which enters level 1; after `sleep_open` the floor is 4 and `enter_sleep`
calls `EMU_EnterEM3`, which enters level 3. -/
theorem C15_counterexample_level_entered_is_not_floor :
    current_block_energy_mode (sleep_open.set EM2 1) = 2 ∧
    enter_sleep (sleep_open.set EM2 1) = .EMU_EnterEM1 ∧
    (enter_sleep (sleep_open.set EM2 1)).level ≠
      some (current_block_energy_mode (sleep_open.set EM2 1)) ∧
    current_block_energy_mode sleep_open = 4 ∧
    enter_sleep sleep_open = .EMU_EnterEM3 ∧
    (enter_sleep sleep_open).level ≠ some (current_block_energy_mode sleep_open) := by
  decide

/-! ## C16 -/

/-- The 32-bit complement used by `remove_scheduled_event`, bit by bit: bit `i` of
`~event` is set exactly when `i` is below 32 and bit `i` of `event` is clear. -/
theorem testBit_complement (event i : Nat) :
    (UINT32_MOD - 1 - event % UINT32_MOD).testBit i = (decide (i < 32) && !event.testBit i) := by
  have h32 : UINT32_MOD = 2 ^ 32 := by norm_num
  have hlt : event % 2 ^ 32 < 2 ^ 32 := Nat.mod_lt _ (by norm_num)
  rw [h32, Nat.sub_sub, Nat.add_comm 1, Nat.testBit_two_pow_sub_succ hlt, Nat.testBit_mod_two_pow]
  cases decide (i < 32) <;> simp

/-- Bit `i` of the pending set after `remove_scheduled_event(event)`. -/
theorem testBit_remove_scheduled_event (event event_scheduled i : Nat) :
    (remove_scheduled_event event event_scheduled).testBit i =
      (event_scheduled.testBit i && (decide (i < 32) && !event.testBit i)) := by
  rw [remove_scheduled_event, Nat.testBit_and, testBit_complement]

/-- C16: for every pending set and every event `E`, `add_scheduled_event(E)` applied twice
gives the same pending set as applying it once, and after `add_scheduled_event(E)`;
`add_scheduled_event(E)`; `remove_scheduled_event(E)` no bit of `E` is set in
`get_scheduled_events()`. -/
theorem C16_post_twice_then_clear (event_scheduled event : Nat) :
    add_scheduled_event event (add_scheduled_event event event_scheduled) =
      add_scheduled_event event event_scheduled ∧
    get_scheduled_events (remove_scheduled_event event
      (add_scheduled_event event (add_scheduled_event event event_scheduled))) &&& event = 0 := by
  constructor
  · apply Nat.eq_of_testBit_eq
    intro i
    simp only [add_scheduled_event, Nat.testBit_or]
    cases event_scheduled.testBit i <;> cases event.testBit i <;> rfl
  · apply Nat.eq_of_testBit_eq
    intro i
    simp only [get_scheduled_events, Nat.testBit_and, testBit_remove_scheduled_event,
      add_scheduled_event, Nat.testBit_or, Nat.zero_testBit]
    cases event_scheduled.testBit i <;> cases event.testBit i <;> cases decide (i < 32) <;> rfl

/-! ## C17 -/

/-- C17: for every pending set and every two distinct event bits `A = 2^i` and `B = 2^j`
(`B` one of the 32 bits of the set), after `add_scheduled_event(A)`; `add_scheduled_event(B)`;
`remove_scheduled_event(A)` the bit `B` is set in `get_scheduled_events()`, `A` is clear,
and every other bit of the 32 has the value it had before the three calls. -/
theorem C17_post_post_clear_frame (event_scheduled i j : Nat) (hj : j < 32) (hij : i ≠ j) :
    (get_scheduled_events (remove_scheduled_event (2 ^ i)
      (add_scheduled_event (2 ^ j) (add_scheduled_event (2 ^ i) event_scheduled)))).testBit j
      = true ∧
    (get_scheduled_events (remove_scheduled_event (2 ^ i)
      (add_scheduled_event (2 ^ j) (add_scheduled_event (2 ^ i) event_scheduled)))).testBit i
      = false ∧
    (∀ k, k < 32 → k ≠ i → k ≠ j →
      (get_scheduled_events (remove_scheduled_event (2 ^ i)
        (add_scheduled_event (2 ^ j) (add_scheduled_event (2 ^ i) event_scheduled)))).testBit k
        = event_scheduled.testBit k) := by
  refine ⟨?_, ?_, fun k hk hki hkj => ?_⟩
  · simp [get_scheduled_events, testBit_remove_scheduled_event, add_scheduled_event,
      Nat.testBit_two_pow, hj, hij]
  · simp [get_scheduled_events, testBit_remove_scheduled_event, add_scheduled_event,
      Nat.testBit_two_pow]
  · simp [get_scheduled_events, testBit_remove_scheduled_event, add_scheduled_event,
      Nat.testBit_two_pow, hk, Ne.symm hki, Ne.symm hkj]

/-- C17 at a concrete input: `A = SI7021_READ_CB` (bit 3), `B = VEML_CB` (bit 7), with the
boot-up event 0x10 pending before. -/
theorem C17_post_post_clear_frame_witness :
    (get_scheduled_events (remove_scheduled_event (2 ^ 3)
      (add_scheduled_event (2 ^ 7) (add_scheduled_event (2 ^ 3) 0x10)))).testBit 7 = true ∧
    (get_scheduled_events (remove_scheduled_event (2 ^ 3)
      (add_scheduled_event (2 ^ 7) (add_scheduled_event (2 ^ 3) 0x10)))).testBit 3 = false ∧
    (∀ k, k < 32 → k ≠ 3 → k ≠ 7 →
      (get_scheduled_events (remove_scheduled_event (2 ^ 3)
        (add_scheduled_event (2 ^ 7) (add_scheduled_event (2 ^ 3) 0x10)))).testBit k
        = (0x10 : Nat).testBit k) :=
  C17_post_post_clear_frame 0x10 3 7 (by decide) (by decide)

/-! ## C18 -/

/-- C18, as amended: for every two-byte write of a buffer value `v`, launched by an
accepted `i2c_start` and driven by four acknowledges, no handler is fatal and exactly two
writes to the transmit register are made between the register byte and the STOP command;
the first of them writes `v` itself, so the data byte that the eight-bit register sends
first is the least significant byte of `v`. -/
theorem C18_two_byte_write_low_byte_first (i2c0_idle : Bool) (bus : I2C_Ptr)
    (slave_address slave_register : Nat) (data : DataPtr) (si_read_cb : Nat)
    (tx : Nat → Nat) (w w1 : World)
    (hstart : i2c_start i2c0_idle bus slave_address slave_register I2C_WRITE data
      si_read_cb I2C_BYTES_2 w = .ok w1) :
    ∃ w2 second, deliver (descriptor_of bus) (acks tx 4) w1 = .ok w2 ∧
      w2.trace = w1.trace ++
        [.TXDATA bus slave_register, .TXDATA bus (w.mem data), .TXDATA bus second,
         .CMD bus .STOP] := by
  rw [i2c_start_ok_iff] at hstart
  obtain ⟨-, -, rfl⟩ := hstart
  generalize descriptor_of bus = p
  cases p <;>
    simp [acks, deliver, Interrupt.handle, i2c_ack, World.deref, World.store, World.emit]

/-- C18 at a concrete input: `veml_write` with 0x1234 in `light_data`. -/
theorem C18_two_byte_write_low_byte_first_witness :
    ∃ w2 second, deliver (descriptor_of VEML_I2C) (acks (fun _ => 0) 4)
        (final (veml_write true (World.zero.poke .light_data 0x1234))) = .ok w2 ∧
      w2.trace = (final (veml_write true (World.zero.poke .light_data 0x1234))).trace ++
        [.TXDATA VEML_I2C VEML_CONFIG,
         .TXDATA VEML_I2C ((World.zero.poke .light_data 0x1234).mem .light_data),
         .TXDATA VEML_I2C second, .CMD VEML_I2C .STOP] :=
  C18_two_byte_write_low_byte_first true VEML_I2C VEML_ADDR VEML_CONFIG .light_data VEML_CB
    (fun _ => 0) (World.zero.poke .light_data 0x1234) _ rfl

/-- C18 as stated fails: `veml_write` with `v = 0x1234` in `light_data`, the transmit
register reading as 0.  The bus output is START, the address byte 0x90, the register byte
0, then the data writes 0x1234 and 0x91A0000, then STOP.  The low eight bits of the first
data write are 0x34, not the most significant byte 0x12, and those of the second are 0x00,
not the least significant byte 0x34. -/
theorem C18_counterexample_veml_write :
    bus_output (final (deliver .veml_i2c_state_machine_struct (acks (fun _ => 0) 4)
        (final (veml_write true (World.zero.poke .light_data 0x1234))))).trace =
      [.CMD .I2C0 .START, .TXDATA .I2C0 0x90, .TXDATA .I2C0 0x00, .TXDATA .I2C0 0x1234,
       .TXDATA .I2C0 0x91A0000, .CMD .I2C0 .STOP] ∧
    (0x1234 : Nat) % 256 = 0x34 ∧ ((0x1234 : Nat) >>> 8) &&& 0xFF = 0x12 ∧
    (0x1234 : Nat) % 256 ≠ ((0x1234 : Nat) >>> 8) &&& 0xFF ∧
    (0x91A0000 : Nat) % 256 = 0 ∧ (0x1234 : Nat) &&& 0xFF = 0x34 ∧
    (0x91A0000 : Nat) % 256 ≠ (0x1234 : Nat) &&& 0xFF :=
  ⟨rfl, by decide, by decide, by decide, by decide, by decide, by decide⟩

/-! ## C19 -/

/-- C19: for every read with `n` bytes to go, `n` in {1, 2}, on either descriptor, the
data-received handler runs without a fatal assertion; it issues an ACK command after each
received byte except the last (after the first byte of two it issues ACK alone and stays
in the transfer phase), and after the last byte it issues NACK followed by STOP, in that
order and without an ACK, and moves the descriptor to the `Stop` phase. -/
theorem C19_read_acks_all_but_last (p : SmPtr) (w : World) (n : Nat) (hn : n = 1 ∨ n = 2)
    (rx : Nat → Nat) (hphase : (w.deref p).current_state = End_Sensing)
    (hbytes : (w.deref p).num_transfer_bytes = n) :
    (∃ w2, deliver p (rxdatavs rx n) w = .ok w2 ∧
      w2.trace = w.trace ++ List.replicate (n - 1) (.CMD (w.deref p).I2Cx .ACK) ++
        [.CMD (w.deref p).I2Cx .NACK, .CMD (w.deref p).I2Cx .STOP] ∧
      (w2.deref p).current_state = Stop) ∧
    (n = 2 → ∃ w1, i2c_rxdatav p (rx 0) w = .ok w1 ∧
      w1.trace = w.trace ++ [.CMD (w.deref p).I2Cx .ACK] ∧
      (w1.deref p).current_state = End_Sensing) := by
  rcases handle_cases w.veml_i2c_state_machine_struct.I2Cx w with hx | hx <;>
    rcases hn with rfl | rfl <;> cases p <;>
    simp only [World.deref] at hphase hbytes <;>
    simp [rxdatavs, deliver, Interrupt.handle, i2c_rxdatav, World.deref, World.store,
      World.emit, World.poke, hphase, hbytes, hx, UINT32_MOD, u32_dec, List.replicate]

/-- C19 at a concrete input: the light read on `I2C0` after its three acknowledges. -/
theorem C19_read_acks_all_but_last_witness :
    (∃ w2, deliver .veml_i2c_state_machine_struct (rxdatavs (fun _ => 0x68) 2)
        (final (deliver .veml_i2c_state_machine_struct (acks (fun _ => 0) 3)
          World.light_read_launched)) = .ok w2 ∧
      w2.trace = (final (deliver .veml_i2c_state_machine_struct (acks (fun _ => 0) 3)
          World.light_read_launched)).trace ++
        List.replicate (2 - 1) (.CMD ((final (deliver .veml_i2c_state_machine_struct
          (acks (fun _ => 0) 3) World.light_read_launched)).deref
            .veml_i2c_state_machine_struct).I2Cx .ACK) ++
        [.CMD ((final (deliver .veml_i2c_state_machine_struct
          (acks (fun _ => 0) 3) World.light_read_launched)).deref
            .veml_i2c_state_machine_struct).I2Cx .NACK,
         .CMD ((final (deliver .veml_i2c_state_machine_struct
          (acks (fun _ => 0) 3) World.light_read_launched)).deref
            .veml_i2c_state_machine_struct).I2Cx .STOP] ∧
      (w2.deref .veml_i2c_state_machine_struct).current_state = Stop) ∧
    (2 = 2 → ∃ w1, i2c_rxdatav .veml_i2c_state_machine_struct ((fun _ => 0x68) 0)
        (final (deliver .veml_i2c_state_machine_struct (acks (fun _ => 0) 3)
          World.light_read_launched)) = .ok w1 ∧
      w1.trace = (final (deliver .veml_i2c_state_machine_struct (acks (fun _ => 0) 3)
          World.light_read_launched)).trace ++
        [.CMD ((final (deliver .veml_i2c_state_machine_struct
          (acks (fun _ => 0) 3) World.light_read_launched)).deref
            .veml_i2c_state_machine_struct).I2Cx .ACK] ∧
      (w1.deref .veml_i2c_state_machine_struct).current_state = End_Sensing) :=
  C19_read_acks_all_but_last .veml_i2c_state_machine_struct _ 2 (Or.inr rfl)
    (fun _ => 0x68) rfl rfl

/-! ## C20 -/

/-- ORing a byte into a value leaves bits 8..15 of the value alone. -/
theorem or_byte_keeps_second_byte (v b : Nat) (hb : b < 256) :
    ((v ||| b) >>> 8) &&& 0xFF = (v >>> 8) &&& 0xFF := by
  apply Nat.eq_of_testBit_eq
  intro i
  have hlt : b < 2 ^ (8 + i) :=
    Nat.lt_of_lt_of_le (by simpa using hb) (Nat.pow_le_pow_right (by decide) (Nat.le_add_right 8 i))
  simp [Nat.testBit_shiftRight, Nat.testBit_lt_two_pow hlt]

/-- Where C20 holds: a one-byte write on either bus leaves the whole memory as it was, and
a one-byte read on the `I2C1` descriptor that receives a byte leaves bits 8..15 of the
buffer as they were. -/
theorem one_byte_transfers_that_keep_second_byte (i2c0_idle : Bool) (bus : I2C_Ptr)
    (slave_address slave_register : Nat) (read_write : Bool) (data : DataPtr)
    (si_read_cb : Nat) (tx rx : Nat → Nat) (w w1 w2 : World) (hb : rx 0 < 256)
    (hstart : i2c_start i2c0_idle bus slave_address slave_register read_write data
      si_read_cb I2C_BYTES_1 w = .ok w1)
    (hrun : deliver (descriptor_of bus) (documented_sequence read_write 1 tx rx) w1 = .ok w2)
    (hwhere : read_write = I2C_WRITE ∨ descriptor_of bus = .i2c_state_machine_struct) :
    (w2.mem data >>> 8) &&& 0xFF = (w.mem data >>> 8) &&& 0xFF := by
  rw [i2c_start_ok_iff] at hstart
  obtain ⟨-, -, rfl⟩ := hstart
  revert hrun hwhere
  generalize descriptor_of bus = p
  intro hwhere hrun
  cases read_write
  · cases p <;>
      simp [documented_sequence, acks, rxdatavs, deliver, Interrupt.handle, i2c_ack, i2c_mstop,
        World.deref, World.store, World.emit, World.sleep_unblock_mode, sleep_unblock_mode,
        World.add_scheduled_event, EnergyModes.set] at hrun <;>
      split_ifs at hrun <;> cases hrun <;> rfl
  · rcases hwhere with h | h
    · cases h
    · subst h
      simp [documented_sequence, acks, rxdatavs, deliver, Interrupt.handle, i2c_ack,
        i2c_rxdatav, i2c_mstop, World.deref, World.store, World.emit, World.poke,
        World.sleep_unblock_mode, sleep_unblock_mode, World.add_scheduled_event,
        EnergyModes.set, UINT32_MOD, u32_dec] at hrun
      split_ifs at hrun
      cases hrun
      simp [or_byte_keeps_second_byte _ _ hb]

/-- C20 fails on the `I2C0` descriptor: a one-byte read launched on `I2C0` from the
start-up world (buffer `light_data` holding 0) and driven to completion with the received
byte 0x3B leaves the buffer equal to 0x3B00; bits 8..15 were 0x00 before and are 0x3B
after, and the low byte, where the `I2C1` descriptor puts the byte, is still 0. -/
theorem C20_i2c0_one_byte_read_writes_second_byte :
    ∃ w2, deliver .veml_i2c_state_machine_struct
        (documented_sequence true 1 (fun _ => 0) (fun _ => 0x3B))
        (final (i2c_start true .I2C0 VEML_ADDR VEML_READ true .light_data VEML_CB I2C_BYTES_1
          World.zero)) = .ok w2 ∧
      (World.zero.mem .light_data >>> 8) &&& 0xFF = 0x00 ∧
      w2.mem .light_data = 0x3B00 ∧
      (w2.mem .light_data >>> 8) &&& 0xFF = 0x3B ∧
      w2.mem .light_data &&& 0xFF = 0x00 :=
  ⟨_, rfl, by decide, rfl, by decide, by decide⟩

/-! ## C21 -/

/-- The bodies run without an interrupt are the routines of `scheduler.c` and
`sleep_routines.c`. -/
theorem run_body_eq (event event_scheduled : Nat) (EM : Fin MAX_ENERGY_MODES)
    (a : EnergyModes) :
    run_body (add_scheduled_event_body event) event_scheduled =
      .ok (add_scheduled_event event event_scheduled) ∧
    run_body (remove_scheduled_event_body event) event_scheduled =
      .ok (remove_scheduled_event event event_scheduled) ∧
    run_body (sleep_block_mode_body EM) a = sleep_block_mode EM a ∧
    run_body (sleep_unblock_mode_body EM) a = sleep_unblock_mode EM a := by
  refine ⟨rfl, rfl, ?_, ?_⟩
  · simp only [run_body, sleep_block_mode_body, sleep_block_mode, decide_eq_true_eq]
  · simp only [run_body, sleep_unblock_mode_body, sleep_unblock_mode, decide_eq_true_eq]

/-- In the three routines that enter a critical section, an interrupt request arriving at
any point of the body is held until `CORE_EXIT_CRITICAL()`: the variable ends as if the
handler had run after the whole read-modify-write. -/
theorem guarded_bodies_are_atomic (k : Nat) (event event_scheduled : Nat)
    (EM : Fin MAX_ENERGY_MODES) (a : EnergyModes) (isr : Nat → Nat)
    (isr_a : EnergyModes → EnergyModes) :
    interleave isr (remove_scheduled_event_body event) (some k) false false event_scheduled =
      isr (remove_scheduled_event event event_scheduled) ∧
    interleave isr_a (sleep_block_mode_body EM) (some k) false false a =
      isr_a (a.set EM (a EM + 1)) ∧
    interleave isr_a (sleep_unblock_mode_body EM) (some k) false false a =
      isr_a (a.set EM (a EM - 1)) := by
  rcases k with _ | _ | _ | _ | k <;>
    simp [interleave, remove_scheduled_event_body, sleep_block_mode_body,
      sleep_unblock_mode_body, remove_scheduled_event]

/-- C21 fails for `add_scheduled_event`: its read-modify-write `event_scheduled |= event`
is not inside a critical section, while those of `remove_scheduled_event`,
`sleep_block_mode` and `sleep_unblock_mode` are.  With the pending set empty, when the
application thread runs `add_scheduled_event(BOOT_UP_CB)` and an interrupt whose handler
posts `SI7021_READ_CB` is taken between the read and the write, the pending set ends as
`BOOT_UP_CB` alone: the event posted by the handler is lost. -/
theorem C21_add_scheduled_event_is_not_guarded :
    updates_in_critical_section (add_scheduled_event_body BOOT_UP_CB) false = false ∧
    updates_in_critical_section (remove_scheduled_event_body BOOT_UP_CB) false = true ∧
    updates_in_critical_section (sleep_block_mode_body EM2) false = true ∧
    updates_in_critical_section (sleep_unblock_mode_body EM2) false = true ∧
    interleave (add_scheduled_event SI7021_READ_CB) (add_scheduled_event_body BOOT_UP_CB)
      (some 0) false false scheduler_open = BOOT_UP_CB ∧
    interleave (add_scheduled_event SI7021_READ_CB) (add_scheduled_event_body BOOT_UP_CB)
      (some 0) false false scheduler_open &&& SI7021_READ_CB = 0 ∧
    add_scheduled_event SI7021_READ_CB (add_scheduled_event BOOT_UP_CB scheduler_open)
      &&& SI7021_READ_CB = SI7021_READ_CB := by
  decide

/-! ## C22 -/

/-- C22: on every row of the transition table other than the two-byte write the
acknowledge handler returns and does what the row says.  `Start_Command` with direction
read: the register byte is written to the transmit register and the phase becomes
`Read_Command`; with direction write: the same write and `Write_Command`.  `Read_Command`:
a START command, then the address byte `(slave_address << 1) | 1`, and `Wait_Read`.
`Write_Command` with byte count 1: the buffer value is written to the transmit register
and the phase becomes `End_Sensing`.  `Wait_Read`: nothing is written and the phase becomes
`End_Sensing`.  `End_Sensing` with direction write: a STOP command and `Stop`.  Nothing but
the phase of the descriptor and the trace changes. -/
theorem C22_ack_follows_table (p : SmPtr) (TXDATA : Nat) (w : World) :
    ((w.deref p).current_state = Start_Command → (w.deref p).read_write = I2C_READ →
      i2c_ack p TXDATA w =
        .ok ((w.store p { w.deref p with current_state := Read_Command }).emit
          [.TXDATA (w.deref p).I2Cx (w.deref p).slave_register])) ∧
    ((w.deref p).current_state = Start_Command → (w.deref p).read_write = I2C_WRITE →
      i2c_ack p TXDATA w =
        .ok ((w.store p { w.deref p with current_state := Write_Command }).emit
          [.TXDATA (w.deref p).I2Cx (w.deref p).slave_register])) ∧
    ((w.deref p).current_state = Read_Command →
      i2c_ack p TXDATA w =
        .ok ((w.store p { w.deref p with current_state := Wait_Read }).emit
          [.CMD (w.deref p).I2Cx .START,
           .TXDATA (w.deref p).I2Cx ((((w.deref p).slave_address <<< 1) % UINT32_MOD) ||| 1)])) ∧
    ((w.deref p).current_state = Write_Command → (w.deref p).num_transfer_bytes = 1 →
      i2c_ack p TXDATA w =
        .ok ((w.store p { w.deref p with current_state := End_Sensing }).emit
          [.TXDATA (w.deref p).I2Cx (w.mem (w.deref p).data)])) ∧
    ((w.deref p).current_state = Wait_Read →
      i2c_ack p TXDATA w =
        .ok (w.store p { w.deref p with current_state := End_Sensing })) ∧
    ((w.deref p).current_state = End_Sensing → (w.deref p).read_write = I2C_WRITE →
      i2c_ack p TXDATA w =
        .ok ((w.store p { w.deref p with current_state := Stop }).emit
          [.CMD (w.deref p).I2Cx .STOP])) := by
  refine ⟨fun h hr => ?_, fun h hr => ?_, fun h => ?_, fun h hn => ?_, fun h => ?_,
    fun h hr => ?_⟩
  · simp [i2c_ack, h, hr]
  · simp [i2c_ack, h, hr]
  · simp [i2c_ack, h]
  · simp [i2c_ack, h, hn]
  · simp [i2c_ack, h]
  · simp [i2c_ack, h, hr]

/-- C22 at concrete inputs: the rows for direction read along the humidity read and the
rows for direction write along the one-byte write of the user register, both on `I2C1`,
each from the world the transaction has reached when the row applies. -/
theorem C22_ack_follows_table_witness :
    (i2c_ack .i2c_state_machine_struct 0 World.humidity_read_launched =
      .ok ((World.humidity_read_launched.store .i2c_state_machine_struct
          { World.humidity_read_launched.deref .i2c_state_machine_struct with
            current_state := Read_Command }).emit
        [.TXDATA (World.humidity_read_launched.deref .i2c_state_machine_struct).I2Cx
          (World.humidity_read_launched.deref .i2c_state_machine_struct).slave_register])) ∧
    (i2c_ack .i2c_state_machine_struct 0 World.user_register_write_launched =
      .ok ((World.user_register_write_launched.store .i2c_state_machine_struct
          { World.user_register_write_launched.deref .i2c_state_machine_struct with
            current_state := Write_Command }).emit
        [.TXDATA (World.user_register_write_launched.deref .i2c_state_machine_struct).I2Cx
          (World.user_register_write_launched.deref
            .i2c_state_machine_struct).slave_register])) ∧
    (i2c_ack .i2c_state_machine_struct 0
        (World.humidity_read_launched.after_acks .i2c_state_machine_struct 1) =
      .ok (((World.humidity_read_launched.after_acks .i2c_state_machine_struct 1).store
          .i2c_state_machine_struct
          { (World.humidity_read_launched.after_acks .i2c_state_machine_struct 1).deref
              .i2c_state_machine_struct with current_state := Wait_Read }).emit
        [.CMD ((World.humidity_read_launched.after_acks .i2c_state_machine_struct 1).deref
            .i2c_state_machine_struct).I2Cx .START,
         .TXDATA ((World.humidity_read_launched.after_acks .i2c_state_machine_struct 1).deref
            .i2c_state_machine_struct).I2Cx
          (((((World.humidity_read_launched.after_acks .i2c_state_machine_struct 1).deref
            .i2c_state_machine_struct).slave_address <<< 1) % UINT32_MOD) ||| 1)])) ∧
    (i2c_ack .i2c_state_machine_struct 0
        (World.user_register_write_launched.after_acks .i2c_state_machine_struct 1) =
      .ok (((World.user_register_write_launched.after_acks .i2c_state_machine_struct 1).store
          .i2c_state_machine_struct
          { (World.user_register_write_launched.after_acks .i2c_state_machine_struct 1).deref
              .i2c_state_machine_struct with current_state := End_Sensing }).emit
        [.TXDATA ((World.user_register_write_launched.after_acks
            .i2c_state_machine_struct 1).deref .i2c_state_machine_struct).I2Cx
          ((World.user_register_write_launched.after_acks .i2c_state_machine_struct 1).mem
            ((World.user_register_write_launched.after_acks .i2c_state_machine_struct 1).deref
              .i2c_state_machine_struct).data)])) ∧
    (i2c_ack .i2c_state_machine_struct 0
        (World.humidity_read_launched.after_acks .i2c_state_machine_struct 2) =
      .ok ((World.humidity_read_launched.after_acks .i2c_state_machine_struct 2).store
          .i2c_state_machine_struct
          { (World.humidity_read_launched.after_acks .i2c_state_machine_struct 2).deref
              .i2c_state_machine_struct with current_state := End_Sensing })) ∧
    (i2c_ack .i2c_state_machine_struct 0
        (World.user_register_write_launched.after_acks .i2c_state_machine_struct 2) =
      .ok (((World.user_register_write_launched.after_acks .i2c_state_machine_struct 2).store
          .i2c_state_machine_struct
          { (World.user_register_write_launched.after_acks .i2c_state_machine_struct 2).deref
              .i2c_state_machine_struct with current_state := Stop }).emit
        [.CMD ((World.user_register_write_launched.after_acks
            .i2c_state_machine_struct 2).deref .i2c_state_machine_struct).I2Cx .STOP])) :=
  ⟨(C22_ack_follows_table .i2c_state_machine_struct 0 _).1 rfl rfl,
   (C22_ack_follows_table .i2c_state_machine_struct 0 _).2.1 rfl rfl,
   (C22_ack_follows_table .i2c_state_machine_struct 0 _).2.2.1 rfl,
   (C22_ack_follows_table .i2c_state_machine_struct 0 _).2.2.2.1 rfl rfl,
   (C22_ack_follows_table .i2c_state_machine_struct 0 _).2.2.2.2.1 rfl,
   (C22_ack_follows_table .i2c_state_machine_struct 0 _).2.2.2.2.2 rfl rfl⟩

/-! ## C23 -/

/-- C23 fails in its second half: for the two-byte write launched by `veml_write` with
`v = 0x1234` in `light_data` and the transmit register reading as 0, the first acknowledge in
`Write_Command` writes 0x1234 to the transmit register (low eight bits 0x34, the low byte of
`v`), sets the transferred-byte counter to 1 and stays in `Write_Command`; the second
acknowledge moves to `End_Sensing` but writes 0x91A0000, which is `v << 15`, whose low
eight bits are 0x00 and not the high byte 0x12. -/
theorem C23_second_byte_is_not_the_high_byte :
    ∃ w1 w2 w3,
      i2c_ack .veml_i2c_state_machine_struct 0
        (final (veml_write true (World.zero.poke .light_data 0x1234))) = .ok w1 ∧
      w1.veml_i2c_state_machine_struct.current_state = Write_Command ∧
      i2c_ack .veml_i2c_state_machine_struct 0 w1 = .ok w2 ∧
      w2.trace = w1.trace ++ [.TXDATA .I2C0 0x1234] ∧
      (0x1234 : Nat) % 256 = 0x1234 &&& 0xFF ∧
      w2.veml_i2c_state_machine_struct.bytes_transfered = 1 ∧
      w2.veml_i2c_state_machine_struct.current_state = Write_Command ∧
      i2c_ack .veml_i2c_state_machine_struct 0 w2 = .ok w3 ∧
      w3.trace = w2.trace ++ [.TXDATA .I2C0 0x91A0000] ∧
      (0x91A0000 : Nat) = 0x1234 <<< 15 ∧
      (0x91A0000 : Nat) % 256 = 0 ∧
      ((0x1234 : Nat) >>> 8) &&& 0xFF = 0x12 ∧
      w3.veml_i2c_state_machine_struct.current_state = End_Sensing :=
  ⟨_, _, _, rfl, rfl, rfl, rfl, by decide, rfl, rfl, rfl, rfl, by decide, by decide, by decide,
    rfl⟩

/-! ## C24 -/

/-- In the phase `Wait_Read` the not-acknowledge handler changes nothing but the trace, to
which it appends a START command and the address byte with the read bit. -/
theorem i2c_nack_wait_read (p : SmPtr) (w : World)
    (h : (w.deref p).current_state = Wait_Read) :
    i2c_nack p w =
      .ok (w.emit [.CMD (w.deref p).I2Cx .START,
        .TXDATA (w.deref p).I2Cx ((((w.deref p).slave_address <<< 1) % UINT32_MOD) ||| 1)]) := by
  have hsm : { w.deref p with current_state := Wait_Read } = w.deref p := by
    rw [← h]
  have hw : w.store p (w.deref p) = w := by
    cases p <;> rfl
  simp [i2c_nack, h, hsm, hw]

/-- C24: a not-acknowledge in `Wait_Read` (AwaitReadRestart) returns, leaves every field of
both descriptors, the counters, the pending set and the memory unchanged (the phase is
still `Wait_Read`) and appends exactly the bus output of the original restart, a START
command followed by the address byte `(slave_address << 1) | 1`; hence for every `k`, `k`
not-acknowledges followed by one acknowledge run without a fatal assertion and reach
`End_Sensing` (Transfer) with the same descriptor as the acknowledge alone. -/
theorem C24_nack_retries_restart (p : SmPtr) (w : World) (TXDATA k : Nat)
    (h : (w.deref p).current_state = Wait_Read) :
    (∃ w1, i2c_nack p w = .ok w1 ∧
      w1.trace = w.trace ++ [.CMD (w.deref p).I2Cx .START,
        .TXDATA (w.deref p).I2Cx ((((w.deref p).slave_address <<< 1) % UINT32_MOD) ||| 1)] ∧
      w1.i2c_state_machine_struct = w.i2c_state_machine_struct ∧
      w1.veml_i2c_state_machine_struct = w.veml_i2c_state_machine_struct ∧
      w1.lowest_energy_mode = w.lowest_energy_mode ∧
      w1.event_scheduled = w.event_scheduled ∧ w1.mem = w.mem) ∧
    (∃ w2 w3, deliver p (List.replicate k .NACK ++ [.ACK TXDATA]) w = .ok w2 ∧
      i2c_ack p TXDATA w = .ok w3 ∧
      w2.deref p = w3.deref p ∧ (w2.deref p).current_state = End_Sensing) := by
  constructor
  · exact ⟨_, i2c_nack_wait_read p w h, rfl, rfl, rfl, rfl, rfl, rfl⟩
  · have hack : ∀ v : World, (v.deref p).current_state = Wait_Read →
        i2c_ack p TXDATA v = .ok (v.store p { v.deref p with current_state := End_Sensing }) := by
      intro v hv
      simp [i2c_ack, hv]
    have hrun : ∀ (n : Nat) (v : World), (v.deref p).current_state = Wait_Read →
        ∃ v2, deliver p (List.replicate n .NACK ++ [.ACK TXDATA]) v = .ok v2 ∧
          v2.deref p = { v.deref p with current_state := End_Sensing } := by
      intro n
      induction n with
      | zero =>
        intro v hv
        refine ⟨v.store p { v.deref p with current_state := End_Sensing }, ?_, ?_⟩
        · simp only [List.replicate, List.nil_append, deliver, Interrupt.handle, hack v hv]
        · rw [deref_store, if_pos rfl]
      | succ n ih =>
        intro v hv
        have hv1 : ((v.emit [.CMD (v.deref p).I2Cx .START,
            .TXDATA (v.deref p).I2Cx ((((v.deref p).slave_address <<< 1) % UINT32_MOD) ||| 1)]).deref
              p).current_state = Wait_Read := by
          rw [deref_emit]
          exact hv
        obtain ⟨v2, hv2, hd⟩ := ih _ hv1
        refine ⟨v2, ?_, ?_⟩
        · simp only [List.replicate, List.cons_append, deliver, Interrupt.handle,
            i2c_nack_wait_read p v hv]
          exact hv2
        · rw [hd, deref_emit]
    obtain ⟨w2, hw2, hd⟩ := hrun k w h
    refine ⟨w2, _, hw2, hack w h, ?_, ?_⟩
    · rw [hd, deref_store, if_pos rfl]
    · rw [hd]

/-- C24 at a concrete input: the humidity read after its first two acknowledges, with
three not-acknowledges before the acknowledge. -/
theorem C24_nack_retries_restart_witness :
    (∃ w1, i2c_nack .i2c_state_machine_struct
        (final (deliver .i2c_state_machine_struct (acks (fun _ => 0) 2)
          World.humidity_read_launched)) = .ok w1 ∧
      w1.trace = (final (deliver .i2c_state_machine_struct (acks (fun _ => 0) 2)
          World.humidity_read_launched)).trace ++
        [.CMD ((final (deliver .i2c_state_machine_struct (acks (fun _ => 0) 2)
            World.humidity_read_launched)).deref .i2c_state_machine_struct).I2Cx .START,
         .TXDATA ((final (deliver .i2c_state_machine_struct (acks (fun _ => 0) 2)
            World.humidity_read_launched)).deref .i2c_state_machine_struct).I2Cx
          (((((final (deliver .i2c_state_machine_struct (acks (fun _ => 0) 2)
            World.humidity_read_launched)).deref .i2c_state_machine_struct).slave_address
              <<< 1) % UINT32_MOD) ||| 1)] ∧
      w1.i2c_state_machine_struct =
        (final (deliver .i2c_state_machine_struct (acks (fun _ => 0) 2)
          World.humidity_read_launched)).i2c_state_machine_struct ∧
      w1.veml_i2c_state_machine_struct =
        (final (deliver .i2c_state_machine_struct (acks (fun _ => 0) 2)
          World.humidity_read_launched)).veml_i2c_state_machine_struct ∧
      w1.lowest_energy_mode =
        (final (deliver .i2c_state_machine_struct (acks (fun _ => 0) 2)
          World.humidity_read_launched)).lowest_energy_mode ∧
      w1.event_scheduled =
        (final (deliver .i2c_state_machine_struct (acks (fun _ => 0) 2)
          World.humidity_read_launched)).event_scheduled ∧
      w1.mem = (final (deliver .i2c_state_machine_struct (acks (fun _ => 0) 2)
          World.humidity_read_launched)).mem) ∧
    (∃ w2 w3, deliver .i2c_state_machine_struct (List.replicate 3 .NACK ++ [.ACK 0])
        (final (deliver .i2c_state_machine_struct (acks (fun _ => 0) 2)
          World.humidity_read_launched)) = .ok w2 ∧
      i2c_ack .i2c_state_machine_struct 0
        (final (deliver .i2c_state_machine_struct (acks (fun _ => 0) 2)
          World.humidity_read_launched)) = .ok w3 ∧
      w2.deref .i2c_state_machine_struct = w3.deref .i2c_state_machine_struct ∧
      (w2.deref .i2c_state_machine_struct).current_state = End_Sensing) :=
  C24_nack_retries_restart .i2c_state_machine_struct _ 0 3 rfl

/-! ## C25 -/

/-- C25, as amended: for every descriptor in the `Stop` phase, while the vote that
`i2c_start` took on EM2 is still held (the EM2 counter is at least 1), the stop-completed
handler returns; it
takes the EM2 counter down by exactly one and leaves the other counters alone, ORs the
completion event of the descriptor into the pending set, sets the phase to
`Start_Command` and busy to false and leaves all other fields of the descriptor, the other
descriptor and the memory (the result buffer included) unchanged; it appends to the trace
the arbiter call and the scheduler call and no bus command. -/
theorem C25_stop_completed (p : SmPtr) (w : World)
    (hphase : (w.deref p).current_state = Stop)
    (hvote : 1 ≤ w.lowest_energy_mode I2C_EM_BLOCK) :
    ∃ w1, i2c_mstop p w = .ok w1 ∧
      w1.lowest_energy_mode I2C_EM_BLOCK = w.lowest_energy_mode I2C_EM_BLOCK - 1 ∧
      (∀ j, j ≠ I2C_EM_BLOCK → w1.lowest_energy_mode j = w.lowest_energy_mode j) ∧
      w1.event_scheduled = w.event_scheduled ||| (w.deref p).si_cb ∧
      w1.deref p = { w.deref p with current_state := Start_Command, i2c_busy := false } ∧
      (∀ q, q ≠ p → w1.deref q = w.deref q) ∧
      w1.mem = w.mem ∧
      w1.trace = w.trace ++
        [.sleep_unblock_mode I2C_EM_BLOCK, .add_scheduled_event (w.deref p).si_cb] ∧
      bus_output [.sleep_unblock_mode I2C_EM_BLOCK, .add_scheduled_event (w.deref p).si_cb]
        = [] := by
  have hge : w.lowest_energy_mode I2C_EM_BLOCK - 1 ≥ 0 := by omega
  refine ⟨((({ w with lowest_energy_mode :=
      w.lowest_energy_mode.set I2C_EM_BLOCK (w.lowest_energy_mode I2C_EM_BLOCK - 1) }
      : World).emit [.sleep_unblock_mode I2C_EM_BLOCK]).add_scheduled_event
        (w.deref p).si_cb).store p
      { w.deref p with current_state := Start_Command, i2c_busy := false }, ?_, ?_, ?_, ?_,
      ?_, ?_, ?_, ?_, rfl⟩
  · cases p <;> simp only [World.deref] at hphase <;>
      simp [i2c_mstop, World.deref, hphase, World.sleep_unblock_mode, sleep_unblock_mode,
        EnergyModes.set, hge, World.emit, World.add_scheduled_event, World.store]
  · rw [lowest_energy_mode_store]
    simp [World.add_scheduled_event, World.emit, EnergyModes.set]
  · intro j hj
    rw [lowest_energy_mode_store]
    simp [World.add_scheduled_event, World.emit, EnergyModes.set, hj]
  · cases p <;> rfl
  · rw [deref_store, if_pos rfl]
  · intro q hq
    rw [deref_store, if_neg hq]
    cases q <;> rfl
  · cases p <;> rfl
  · cases p <;> simp [World.store, World.add_scheduled_event, World.emit]

/-- C25 at a concrete input: the light read on `I2C0` in the `Stop` phase. -/
theorem C25_stop_completed_witness :
    ∃ w1, i2c_mstop .veml_i2c_state_machine_struct World.light_read_stopping = .ok w1 ∧
      w1.lowest_energy_mode I2C_EM_BLOCK =
        World.light_read_stopping.lowest_energy_mode I2C_EM_BLOCK - 1 ∧
      (∀ j, j ≠ I2C_EM_BLOCK →
        w1.lowest_energy_mode j = World.light_read_stopping.lowest_energy_mode j) ∧
      w1.event_scheduled = World.light_read_stopping.event_scheduled |||
        (World.light_read_stopping.deref .veml_i2c_state_machine_struct).si_cb ∧
      w1.deref .veml_i2c_state_machine_struct =
        { World.light_read_stopping.deref .veml_i2c_state_machine_struct with
          current_state := Start_Command, i2c_busy := false } ∧
      (∀ q, q ≠ SmPtr.veml_i2c_state_machine_struct →
        w1.deref q = World.light_read_stopping.deref q) ∧
      w1.mem = World.light_read_stopping.mem ∧
      w1.trace = World.light_read_stopping.trace ++
        [.sleep_unblock_mode I2C_EM_BLOCK,
         .add_scheduled_event
          (World.light_read_stopping.deref .veml_i2c_state_machine_struct).si_cb] ∧
      bus_output [.sleep_unblock_mode I2C_EM_BLOCK,
         .add_scheduled_event
          (World.light_read_stopping.deref .veml_i2c_state_machine_struct).si_cb] = [] :=
  C25_stop_completed .veml_i2c_state_machine_struct World.light_read_stopping rfl (by decide)

/-- C25 as stated fails when the EM2 counter is 0: after the run `stray_release_run` from
the start-up world, in which launches are made only on a bus that is not busy and no step is
fatal, the `I2C0` descriptor is in the `Stop` phase and busy while the EM2 counter is 0.
The stop-completed handler on it then ends in the assertion of `sleep_unblock_mode`: the
completion event `VEML_CB` is not posted, the phase is still `Stop` and busy is still
true. -/
theorem C25_counterexample_vote_already_released :
    ∃ w w1, exec launch_on_idle_bus stray_release_run World.zero = some w ∧
      Reachable launch_on_idle_bus w ∧
      w.veml_i2c_state_machine_struct.current_state = Stop ∧
      w.veml_i2c_state_machine_struct.i2c_busy = true ∧
      w.lowest_energy_mode EM2 = 0 ∧
      i2c_mstop .veml_i2c_state_machine_struct w = .error w1 ∧
      w1.trace = w.trace ++ [.sleep_unblock_mode EM2] ∧
      w1.event_scheduled &&& VEML_CB = 0 ∧
      w1.veml_i2c_state_machine_struct.current_state = Stop ∧
      w1.veml_i2c_state_machine_struct.i2c_busy = true :=
  ⟨_, _, rfl, exec_reachable _ stray_release_run World.zero _
      (Reachable.start World.zero rfl rfl rfl) rfl, rfl, rfl, rfl, rfl, rfl, rfl, rfl, rfl⟩

/-! ## C26 -/

/-- C26: for every write transaction of one or two bytes on either bus, launched by an
accepted `i2c_start` and driven through its acknowledges to stop-completed, the memory, the
caller's buffer included, holds the same values after the transaction as before it, in
whatever state the run ends; and from a state whose EM2 counter is not negative the run
ends without a fatal assertion. -/
theorem C26_write_keeps_buffer (i2c0_idle : Bool) (bus : I2C_Ptr)
    (slave_address slave_register : Nat) (data : DataPtr) (si_read_cb n : Nat)
    (hn : n = 1 ∨ n = 2) (tx rx : Nat → Nat) (w w1 : World)
    (hstart : i2c_start i2c0_idle bus slave_address slave_register I2C_WRITE data
      si_read_cb n w = .ok w1) :
    (final (deliver (descriptor_of bus) (documented_sequence I2C_WRITE n tx rx) w1)).mem data
      = w.mem data ∧
    (final (deliver (descriptor_of bus) (documented_sequence I2C_WRITE n tx rx) w1)).mem
      = w.mem ∧
    (0 ≤ w.lowest_energy_mode I2C_EM_BLOCK →
      ∃ w2, deliver (descriptor_of bus) (documented_sequence I2C_WRITE n tx rx) w1
        = .ok w2) := by
  rw [i2c_start_ok_iff] at hstart
  obtain ⟨-, -, rfl⟩ := hstart
  generalize descriptor_of bus = p
  refine ⟨?_, ?_, fun hinv => ?_⟩
  · rcases hn with rfl | rfl <;> cases p <;>
      simp [documented_sequence, acks, deliver, Interrupt.handle, i2c_ack, i2c_mstop,
        World.deref, World.store, World.emit, World.sleep_unblock_mode, sleep_unblock_mode,
        World.add_scheduled_event, EnergyModes.set] <;>
      split_ifs <;> rfl
  · rcases hn with rfl | rfl <;> cases p <;>
      simp [documented_sequence, acks, deliver, Interrupt.handle, i2c_ack, i2c_mstop,
        World.deref, World.store, World.emit, World.sleep_unblock_mode, sleep_unblock_mode,
        World.add_scheduled_event, EnergyModes.set] <;>
      split_ifs <;> rfl
  · rcases hn with rfl | rfl <;> cases p <;>
      simp [documented_sequence, acks, deliver, Interrupt.handle, i2c_ack, i2c_mstop,
        World.deref, World.store, World.emit, World.sleep_unblock_mode, sleep_unblock_mode,
        World.add_scheduled_event, EnergyModes.set, hinv]

/-- C26 at the input of the self-test: the one-byte write of 0x01 to the user register on
`I2C1`. -/
theorem C26_write_keeps_buffer_witness :
    (final (deliver (descriptor_of SI7021_I2C)
        (documented_sequence I2C_WRITE 1 (fun _ => 0) (fun _ => 0))
        (final (i2c_start true SI7021_I2C SI7021_SLAVE_ADDRESS 0xE6 I2C_WRITE .humidity_data
          SI7021_READ_CB 1 (World.zero.poke .humidity_data 0x01))))).mem .humidity_data
      = (World.zero.poke .humidity_data 0x01).mem .humidity_data ∧
    (final (deliver (descriptor_of SI7021_I2C)
        (documented_sequence I2C_WRITE 1 (fun _ => 0) (fun _ => 0))
        (final (i2c_start true SI7021_I2C SI7021_SLAVE_ADDRESS 0xE6 I2C_WRITE .humidity_data
          SI7021_READ_CB 1 (World.zero.poke .humidity_data 0x01))))).mem
      = (World.zero.poke .humidity_data 0x01).mem ∧
    (0 ≤ (World.zero.poke .humidity_data 0x01).lowest_energy_mode I2C_EM_BLOCK →
      ∃ w2, deliver (descriptor_of SI7021_I2C)
        (documented_sequence I2C_WRITE 1 (fun _ => 0) (fun _ => 0))
        (final (i2c_start true SI7021_I2C SI7021_SLAVE_ADDRESS 0xE6 I2C_WRITE .humidity_data
          SI7021_READ_CB 1 (World.zero.poke .humidity_data 0x01))) = .ok w2) :=
  C26_write_keeps_buffer true SI7021_I2C SI7021_SLAVE_ADDRESS 0xE6 .humidity_data
    SI7021_READ_CB 1 (Or.inl rfl) (fun _ => 0) (fun _ => 0)
    (World.zero.poke .humidity_data 0x01) _ rfl

/-! ## C27 -/

/-- C27 fails when the buffer is not clear before the read: with `humidity_data` holding
0x683A (the result of an earlier humidity read), the one-byte read of the user register
(0xE7) on `I2C1` that receives 0x3A runs to completion and leaves the buffer equal to
0x683A, the old content ORed with the byte, not to 0x3A.  With the buffer holding 0x01, as
in the self-test, and the byte 0x3B the result is 0x3B only because 0x01 | 0x3B = 0x3B. -/
theorem C27_one_byte_read_ors_into_buffer :
    (∃ w2, deliver .i2c_state_machine_struct
        (documented_sequence I2C_READ 1 (fun _ => 0) (fun _ => 0x3A))
        (final (i2c_start true SI7021_I2C SI7021_SLAVE_ADDRESS 0xE7 I2C_READ .humidity_data
          SI7021_READ_CB I2C_BYTES_1 (World.zero.poke .humidity_data 0x683A))) = .ok w2 ∧
      w2.mem .humidity_data = 0x683A ∧ w2.mem .humidity_data ≠ 0x3A ∧
      w2.mem .humidity_data = 0x683A ||| 0x3A) ∧
    (∃ w2, deliver .i2c_state_machine_struct
        (documented_sequence I2C_READ 1 (fun _ => 0) (fun _ => 0x3B))
        (final (i2c_start true SI7021_I2C SI7021_SLAVE_ADDRESS 0xE7 I2C_READ .humidity_data
          SI7021_READ_CB I2C_BYTES_1 (World.zero.poke .humidity_data 0x01))) = .ok w2 ∧
      w2.mem .humidity_data = 0x3B ∧ (0x01 : Nat) ||| 0x3B = 0x3B) :=
  ⟨⟨_, rfl, rfl, by decide, by decide⟩, ⟨_, rfl, rfl, by decide⟩⟩

/-! ## C28 -/

/-- C28: on the `I2C0` descriptor `veml_i2c_state_machine_struct`, whenever its handle
differs from the one stored in the `I2C1` descriptor, in the transfer phase of a read with
two bytes to go, for every first value `b1`, every second byte `b2` below 256 and every
prior buffer content, the two data-received interrupts run without a fatal assertion and
leave the result buffer equal to `b1 | (b2 << 8)`: the first byte received is the low
byte. -/
theorem C28_i2c0_read_is_little_endian (w : World) (b1 b2 : Nat) (hb2 : b2 < 256)
    (hphase : w.veml_i2c_state_machine_struct.current_state = End_Sensing)
    (hbytes : w.veml_i2c_state_machine_struct.num_transfer_bytes = 2)
    (hne : w.veml_i2c_state_machine_struct.I2Cx ≠ w.i2c_state_machine_struct.I2Cx) :
    ∃ w2, deliver .veml_i2c_state_machine_struct [.RXDATAV b1, .RXDATAV b2] w = .ok w2 ∧
      w2.mem w.veml_i2c_state_machine_struct.data = b1 ||| (b2 <<< 8) := by
  have hlt : b2 <<< 8 < UINT32_MOD := by
    rw [Nat.shiftLeft_eq]
    simp only [UINT32_MOD]
    omega
  have hmod : b2 <<< 8 % 4294967296 = b2 <<< 8 := Nat.mod_eq_of_lt hlt
  simp [deliver, Interrupt.handle, i2c_rxdatav, World.deref, World.store, World.emit,
    World.poke, hphase, hbytes, hne, UINT32_MOD, u32_dec, hmod]

/-- C28 at a concrete input: the light read after its three acknowledges. -/
theorem C28_i2c0_read_is_little_endian_witness :
    ∃ w2, deliver .veml_i2c_state_machine_struct [.RXDATAV 0x68, .RXDATAV 0x3A]
        (World.light_read_launched.after_acks .veml_i2c_state_machine_struct 3) = .ok w2 ∧
      w2.mem (World.light_read_launched.after_acks .veml_i2c_state_machine_struct
        3).veml_i2c_state_machine_struct.data = 0x68 ||| (0x3A <<< 8) :=
  C28_i2c0_read_is_little_endian _ 0x68 0x3A (by decide) rfl rfl (by decide)

/-! ## C29 -/

/-- C29: for every counter state with all counters non-negative, the action of
`enter_sleep` is determined by the floor `f = current_block_energy_mode()`, which is at
most 4: no low-power mode is entered when `f` is 0 or 1, `EMU_EnterEM1` is called when
`f = 2`, `EMU_EnterEM2` when `f = 3` and `EMU_EnterEM3` when `f = 4`; so every level entered
is numbered below `f`, and no routine entering EM4 is ever called. -/
theorem C29_enter_sleep_by_floor (a : EnergyModes) (hnn : ∀ i, 0 ≤ a i) :
    (current_block_energy_mode a = 0 ∨ current_block_energy_mode a = 1 →
      enter_sleep a = .nothing) ∧
    (current_block_energy_mode a = 2 → enter_sleep a = .EMU_EnterEM1) ∧
    (current_block_energy_mode a = 3 → enter_sleep a = .EMU_EnterEM2) ∧
    (current_block_energy_mode a = 4 → enter_sleep a = .EMU_EnterEM3) ∧
    current_block_energy_mode a ≤ 4 ∧
    (∀ l, (enter_sleep a).level = some l → l < current_block_energy_mode a) ∧
    (enter_sleep a).level ≠ some 4 := by
  have h0 := hnn EM0
  have h1 := hnn EM1
  have h2 := hnn EM2
  have h3 := hnn EM3
  rw [current_block_energy_mode_eq]
  simp only [enter_sleep]
  by_cases c0 : a EM0 = 0
  · by_cases c1 : a EM1 = 0
    · by_cases c2 : a EM2 = 0
      · by_cases c3 : a EM3 = 0
        · simp [c0, c1, c2, c3, EMU_Call.level]
        · have p3 : a EM3 > 0 := by omega
          simp [c0, c1, c2, c3, p3, EMU_Call.level]
      · have p2 : a EM2 > 0 := by omega
        simp [c0, c1, c2, p2, EMU_Call.level]
    · have p1 : a EM1 > 0 := by omega
      simp [c0, c1, p1, EMU_Call.level]
  · have p0 : a EM0 > 0 := by omega
    simp [c0, p0, EMU_Call.level]

/-- C29 at concrete inputs: one vote on level 1, on level 2, on level 3, and no vote. -/
theorem C29_enter_sleep_by_floor_witness :
    enter_sleep (sleep_open.set EM1 1) = .nothing ∧
    enter_sleep (sleep_open.set EM2 1) = .EMU_EnterEM1 ∧
    enter_sleep (sleep_open.set EM3 1) = .EMU_EnterEM2 ∧
    enter_sleep sleep_open = .EMU_EnterEM3 ∧
    current_block_energy_mode sleep_open ≤ 4 ∧
    (enter_sleep sleep_open).level ≠ some 4 :=
  ⟨(C29_enter_sleep_by_floor (sleep_open.set EM1 1) (by decide)).1 (Or.inr (by decide)),
   (C29_enter_sleep_by_floor (sleep_open.set EM2 1) (by decide)).2.1 (by decide),
   (C29_enter_sleep_by_floor (sleep_open.set EM3 1) (by decide)).2.2.1 (by decide),
   (C29_enter_sleep_by_floor sleep_open (by decide)).2.2.2.1 (by decide),
   (C29_enter_sleep_by_floor sleep_open (by decide)).2.2.2.2.1,
   (C29_enter_sleep_by_floor sleep_open (by decide)).2.2.2.2.2.2⟩

/-! ## C30 -/

/-- C30, as amended: whenever one of the four handlers ends in a fatal assertion, either it
is one of the handler's own assertions, reached with the world exactly as it was (no bus
register written, no scheduler or arbiter call made, every field of the descriptors and the
memory unchanged), or the handler is `i2c_mstop` in the `Stop` phase with the EM2 counter
below 1 and the assertion is the one inside `sleep_unblock_mode`: then the arbiter call has
been made and has taken the EM2 counter down by one, and nothing else has changed (no bus
register written, no scheduler call made, descriptors and memory unchanged). -/
theorem C30_fatal_handler_effects (p : SmPtr) (irq : Interrupt) (w w1 : World)
    (h : irq.handle p w = .error w1) :
    w1 = w ∨
    (irq = .MSTOP ∧ (w.deref p).current_state = Stop ∧
      w.lowest_energy_mode I2C_EM_BLOCK < 1 ∧
      w1 = { w with
        lowest_energy_mode :=
          w.lowest_energy_mode.set I2C_EM_BLOCK (w.lowest_energy_mode I2C_EM_BLOCK - 1),
        trace := w.trace ++ [.sleep_unblock_mode I2C_EM_BLOCK] }) := by
  cases irq with
  | ACK t =>
    left
    simp only [Interrupt.handle, i2c_ack] at h
    split_ifs at h <;> cases h <;> rfl
  | NACK =>
    left
    simp only [Interrupt.handle, i2c_nack] at h
    split_ifs at h <;> cases h <;> rfl
  | RXDATAV r =>
    left
    simp only [Interrupt.handle, i2c_rxdatav] at h
    split_ifs at h <;> cases h <;> rfl
  | MSTOP =>
    simp only [Interrupt.handle, i2c_mstop] at h
    split_ifs at h with h0 h1 h2 h3 h4 h5
    · left; cases h; rfl
    · left; cases h; rfl
    · left; cases h; rfl
    · left; cases h; rfl
    · left; cases h; rfl
    · right
      simp only [World.sleep_unblock_mode, sleep_unblock_mode] at h
      split_ifs at h with hc
      cases h
      simp only [EnergyModes.set, if_true, lowest_energy_mode_emit] at hc
      refine ⟨rfl, h5, ?_, rfl⟩
      clear h0 h1 h2 h3 h4 h5
      omega
    · left; cases h; rfl

/-- C30 at a concrete input: an acknowledge on the `I2C1` descriptor with the phase value
7. -/
theorem C30_fatal_handler_effects_witness :
    World.zero.store .i2c_state_machine_struct
        { I2C_STATE_MACHINE.zero with current_state := 7 } =
      World.zero.store .i2c_state_machine_struct
        { I2C_STATE_MACHINE.zero with current_state := 7 } ∨
    (Interrupt.ACK 0 = .MSTOP ∧
      ((World.zero.store .i2c_state_machine_struct
        { I2C_STATE_MACHINE.zero with current_state := 7 }).deref
          .i2c_state_machine_struct).current_state = Stop ∧
      (World.zero.store .i2c_state_machine_struct
        { I2C_STATE_MACHINE.zero with current_state := 7 }).lowest_energy_mode I2C_EM_BLOCK
          < 1 ∧
      World.zero.store .i2c_state_machine_struct
        { I2C_STATE_MACHINE.zero with current_state := 7 } =
      { World.zero.store .i2c_state_machine_struct
          { I2C_STATE_MACHINE.zero with current_state := 7 } with
        lowest_energy_mode :=
          (World.zero.store .i2c_state_machine_struct
            { I2C_STATE_MACHINE.zero with current_state := 7 }).lowest_energy_mode.set
              I2C_EM_BLOCK
              ((World.zero.store .i2c_state_machine_struct
                { I2C_STATE_MACHINE.zero with current_state := 7 }).lowest_energy_mode
                  I2C_EM_BLOCK - 1),
        trace := (World.zero.store .i2c_state_machine_struct
          { I2C_STATE_MACHINE.zero with current_state := 7 }).trace ++
            [.sleep_unblock_mode I2C_EM_BLOCK] }) :=
  C30_fatal_handler_effects .i2c_state_machine_struct (.ACK 0)
    (World.zero.store .i2c_state_machine_struct
      { I2C_STATE_MACHINE.zero with current_state := 7 }) _ rfl

/-- C30 as stated fails for `i2c_mstop`: the run `stray_stop_run` from the start-up world,
in which launches are made only on a bus that is not busy and no step is fatal, ends with
the `I2C1` descriptor in the `Stop` phase and the EM2 counter at 0; the stop-completed
handler then ends in the assertion of `sleep_unblock_mode`, after the arbiter call has been
made and has taken the EM2 counter to -1. -/
theorem C30_counterexample_mstop_after_arbiter_call :
    ∃ w w1, exec launch_on_idle_bus stray_stop_run World.zero = some w ∧
      Reachable launch_on_idle_bus w ∧
      w.i2c_state_machine_struct.current_state = Stop ∧
      w.lowest_energy_mode EM2 = 0 ∧
      i2c_mstop .i2c_state_machine_struct w = .error w1 ∧
      w1.lowest_energy_mode EM2 = -1 ∧
      w1.trace = w.trace ++ [.sleep_unblock_mode EM2] :=
  ⟨_, _, rfl, exec_reachable _ stray_stop_run World.zero _
      (Reachable.start World.zero rfl rfl rfl) rfl, rfl, rfl, rfl, rfl, rfl⟩

end ECEN2370
